import Mathlib

/-!
# Verification of the hospital price-transparency finder

A shallow embedding, in Lean 4, of the discovery-and-validation pipeline of the
`Price-Transparency` repository (the `price-finder` package: orchestrator, web
crawler link extraction, file validator, hospital matcher and status tracker),
together with theorems settling the frozen claims C1–C10 about it.

Conventions of the embedding:
* Python strings are Lean `String`s restricted to ASCII text; `str.lower`,
  `in` (substring), `replace`, `split()`, `strip()` are re-implemented below by
  structural recursion on `List Char` so that every definition evaluates inside
  the kernel.
* Python floats are embedded as exact rationals (`Rat`); all numeric literals of
  the source are written `mkRat n d` (kernel-computable normal forms).
* The file system, the network, the search API, the LLM providers and pandas/
  sqlite are external collaborators: each is represented by an explicit input
  (the decoded text of a file, an oracle environment of `Except`-valued call
  results, a list of table rows), exactly at the call boundary of the source.
-/

namespace PriceFinder

/-! ## Python string primitives -/

/-- `str.lower` for ASCII text (the source only handles ASCII names/keywords). -/
def pyLowerChar (c : Char) : Char :=
  if 'A' ≤ c ∧ c ≤ 'Z' then Char.ofNat (c.toNat + 32) else c

/-- `s.lower()` on a Lean string. -/
def pyLower (s : String) : String := String.mk (s.toList.map pyLowerChar)

/-- Whether `p` is a leading segment of `l` (helper for substring search). -/
def leadsList [BEq α] : List α → List α → Bool
  | [], _ => true
  | _ :: _, [] => false
  | a :: as, b :: bs => a == b && leadsList as bs

/-- Python `needle in haystack` on lists (substring containment). -/
def substrList [BEq α] (n : List α) : List α → Bool
  | [] => n.isEmpty
  | c :: rest => leadsList n (c :: rest) || substrList n rest

/-- Python `needle in haystack` for strings. -/
def strIn (needle hay : String) : Bool := substrList needle.toList hay.toList

/-- Python `s.startswith(p)`. -/
def pyStartsWith (s p : String) : Bool := leadsList p.toList s.toList

/-- Python `s.endswith(p)`. -/
def pyEndsWith (s p : String) : Bool := leadsList p.toList.reverse s.toList.reverse

/-- One step of Python `str.replace` with fuel (pattern assumed non-empty,
as in every call site of the source; empty pattern returns the input). -/
def replaceAux : Nat → List Char → List Char → List Char → List Char
  | 0, s, _, _ => s
  | _ + 1, [], _, _ => []
  | fuel + 1, c :: rest, pat, rep =>
    if pat ≠ [] && leadsList pat (c :: rest) then
      rep ++ replaceAux fuel ((c :: rest).drop pat.length) pat rep
    else
      c :: replaceAux fuel rest pat rep

/-- Python `s.replace(pat, rep)` (all non-overlapping occurrences, left to right). -/
def pyReplace (s pat rep : String) : String :=
  String.mk (replaceAux s.toList.length s.toList pat.toList rep.toList)

/-- Python whitespace test for `split()` / `strip()`. -/
def pyIsSpace (c : Char) : Bool := c == ' ' || c == '\t' || c == '\n' || c == '\r'

/-- Helper of `pySplitWs`: accumulates the current word (reversed). -/
def pySplitWsAux : List Char → List Char → List String
  | [], [] => []
  | [], acc => [String.mk acc.reverse]
  | c :: rest, acc =>
    if pyIsSpace c then
      match acc with
      | [] => pySplitWsAux rest []
      | _ => String.mk acc.reverse :: pySplitWsAux rest []
    else pySplitWsAux rest (c :: acc)

/-- Python `s.split()` (split on whitespace runs, no empty items). -/
def pySplitWs (s : String) : List String := pySplitWsAux s.toList []

/-- Python `s.strip()`. -/
def pyStrip (s : String) : String :=
  String.mk (((s.toList.dropWhile pyIsSpace).reverse.dropWhile pyIsSpace).reverse)

/-- Python `s.find(sub)`: first index of `sub` in `s`, or `-1`. -/
def pyFindAux : Nat → List Char → List Char → Int
  | _, s, sub => if leadsList sub s then 0 else
    match s with
    | [] => -1
    | _ :: rest =>
      match pyFindAux 0 rest sub with
      | -1 => -1
      | i => i + 1

/-- Python `s.find(sub)`. -/
def pyFind (s sub : String) : Int := pyFindAux 0 s.toList sub.toList

/-- Python `range(0, stop, step)` for positive `step`. -/
def pyRangeBy (stop step : Nat) : List Nat :=
  (List.range ((stop + step - 1) / step)).map (· * step)

/-! ## Hospital data model (src/price-finder/src/models/hospital.py)

The `Hospital` dataclass.  Timestamps are abstracted to `Nat`.  Its field set
is fixed, which is what Python's `hasattr`/`getattr` probe at runtime. -/

structure Hospital where
  id : String
  name : String
  state : String
  city : Option String := none
  address : Option String := none
  website : Option String := none
  health_system_name : Option String := none
  price_transparency_url : Option String := none
  url_validated : Bool := false
  validation_date : Option Nat := none
  last_search_date : Option Nat := none
  search_status : String := "pending"
  search_attempts : Nat := 0
deriving DecidableEq, Repr

/-- A Python attribute value of a `Hospital` instance. -/
inductive PyAttr where
  | str (s : String)
  | optStr (o : Option String)
  | boolV (b : Bool)
  | natV (n : Nat)
  | optNat (o : Option Nat)
deriving DecidableEq, Repr

/-- Python `getattr(hospital, attr)` over the fields of the `Hospital`
dataclass; `none` models `AttributeError` (`hasattr` returning `False`). -/
def Hospital.getattr? (h : Hospital) : String → Option PyAttr
  | "id" => some (.str h.id)
  | "name" => some (.str h.name)
  | "state" => some (.str h.state)
  | "city" => some (.optStr h.city)
  | "address" => some (.optStr h.address)
  | "website" => some (.optStr h.website)
  | "health_system_name" => some (.optStr h.health_system_name)
  | "price_transparency_url" => some (.optStr h.price_transparency_url)
  | "url_validated" => some (.boolV h.url_validated)
  | "validation_date" => some (.optNat h.validation_date)
  | "last_search_date" => some (.optNat h.last_search_date)
  | "search_status" => some (.str h.search_status)
  | "search_attempts" => some (.natV h.search_attempts)
  | _ => none

/-- The expression `getattr(hospital, 'health_sys_name', '') if
hasattr(hospital, 'health_sys_name') else ''` followed by the truthiness
coercion of `None` to `''`, used by both the orchestrator (lines 147–148) and
the matcher (line 129). -/
def hospitalHealthSysName (h : Hospital) : String :=
  match h.getattr? "health_sys_name" with
  | some (.str s) => s
  | some (.optStr (some s)) => s
  | _ => ""

/-- Orchestrator lines 147–149: `is_system_hospital = bool(health_sys_name and
health_sys_name.strip() != '')`. -/
def isSystemHospital (h : Hospital) : Bool :=
  let hsn := hospitalHealthSysName h
  hsn ≠ "" && pyStrip hsn ≠ ""

/-! ## difflib.SequenceMatcher (Python stdlib)

The matcher's fuzzy search calls `SequenceMatcher(None, needle, chunk)` with no
junk predicate; the chunks it builds are far below the 200-character autojunk
threshold, so the model implements the plain (junk-free) algorithm:
`quick_ratio` is the multiset character overlap, `ratio` sums the recursively
computed longest matching blocks.  Ratios are built with `mkRat` (exact). -/

/-- Number of occurrences of `c` in `l`. -/
def countChar (l : List Char) (c : Char) : Nat := (l.filter (· == c)).length

/-- `2*matches/(len(a)+len(b))` (`difflib._calculate_ratio`; 1 when both empty). -/
def calcRatio (m total : Nat) : Rat :=
  if total > 0 then mkRat (2 * m) total else 1

/-- `SequenceMatcher.quick_ratio`: upper bound from multiset intersection. -/
def quickRatio (a b : List Char) : Rat :=
  calcRatio ((a.dedup.map (fun c => min (countChar a c) (countChar b c))).sum)
    (a.length + b.length)

/-- Ascending positions of `c` in `b` (difflib's `b2j` entry for `c`). -/
def positionsOf (b : List Char) (c : Char) : List Nat :=
  (List.range b.length).filter (fun j => b.getD j ' ' == c)

/-- Lookup in a `j ↦ len` association list, defaulting to 0. -/
def lookupJ (m : List (Nat × Nat)) (k : Nat) : Nat :=
  ((m.find? (fun p => p.1 == k)).map Prod.snd).getD 0

/-- `SequenceMatcher.find_longest_match(alo, ahi, blo, bhi)` (junk-free case:
the post-pass extension loops are no-ops because the dynamic program already
returns a maximal block).  Returns `(besti, bestj, bestsize)`, ties resolved
to the earliest `i` then earliest `j`, as in the source's strict `>` update. -/
def findLongestMatch (a b : List Char) (alo ahi blo bhi : Nat) : Nat × Nat × Nat :=
  let step := fun (st : List (Nat × Nat) × (Nat × Nat × Nat)) (i : Nat) =>
    let j2len := st.1
    let js := (positionsOf b (a.getD i ' ')).filter (fun j => blo ≤ j && j < bhi)
    js.foldl (fun (st2 : List (Nat × Nat) × (Nat × Nat × Nat)) j =>
        let k := (if j = 0 then 0 else lookupJ j2len (j - 1)) + 1
        let best := st2.2
        let best' := if k > best.2.2 then (i + 1 - k, j + 1 - k, k) else best
        ((j, k) :: st2.1, best'))
      ([], st.2)
  ((List.range' alo (ahi - alo)).foldl step ([], (alo, blo, 0))).2

/-- `SequenceMatcher.get_matching_blocks` (recursive split around each longest
match; the sentinel block and the junk-only merge pass are omitted — with no
junk, adjacent blocks cannot arise).  `fuel` bounds the recursion depth; it is
called with `a.length + b.length`, which the splits never exhaust. -/
def matchingBlocksAux (a b : List Char) : Nat → Nat → Nat → Nat → Nat → List (Nat × Nat × Nat)
  | 0, _, _, _, _ => []
  | fuel + 1, alo, ahi, blo, bhi =>
    let r := findLongestMatch a b alo ahi blo bhi
    if r.2.2 = 0 then []
    else
      matchingBlocksAux a b fuel alo r.1 blo r.2.1 ++ [r] ++
        matchingBlocksAux a b fuel (r.1 + r.2.2) ahi (r.2.1 + r.2.2) bhi

/-- `SequenceMatcher.ratio`: twice the total matched length over the total length. -/
def seqRatio (a b : List Char) : Rat :=
  calcRatio ((matchingBlocksAux a b (a.length + b.length + 1) 0 a.length 0 b.length).map
    (fun r => r.2.2)).sum (a.length + b.length)

/-! ## HospitalMatcher (src/price-finder/src/validators/hospital_matcher.py) -/

/-- `(is_valid, confidence, reasoning)` triple returned by the matcher. -/
structure MatchResult where
  isMatch : Bool
  confidence : Rat
  reasoning : String
deriving DecidableEq, Repr

/-- `HospitalMatcher._fuzzy_match_in_text` (lines 299–335). -/
def fuzzyMatchInText (needle haystack : String) : Bool :=
  let n := needle.toList
  let h := haystack.toList
  if n.length < 4 then substrList n h
  else
    let chunkSize := n.length * 2
    let bound : Int := (h.length : Int) - n.length + 1
    if bound ≤ 0 then false
    else
      (pyRangeBy bound.toNat (chunkSize / 2)).any fun i =>
        let chunk :=
          if n.length > chunkSize then (h.drop i).take (n.length + 10)
          else (h.drop i).take chunkSize
        quickRatio n chunk > mkRat 7 10 && seqRatio n chunk > mkRat 7 10

/-- `HospitalMatcher._generate_hospital_name_variations` (lines 235–270). -/
def generateHospitalNameVariations (hospital_name : String) : List String :=
  let vars0 := [hospital_name]
  let vars1 := ["hospital", "medical", "center", "health", "regional", "community",
      "memorial"].foldl (fun acc w =>
      let clean := pyReplace (pyReplace hospital_name (" " ++ w) "") (w ++ " ") ""
      if clean ≠ hospital_name && clean.length > 3 then acc ++ [clean] else acc) vars0
  let words := pySplitWs hospital_name
  if words.length > 1 then
    let acronym := String.mk (words.filterMap fun w =>
      w.toList.head?.bind fun c => if c.isAlpha then some c else none)
    let vars2 := if acronym.length > 1 then vars1 ++ [pyLower acronym] else vars1
    let vars3 := if strIn "saint" hospital_name then
        vars2 ++ [pyReplace hospital_name "saint" "st"] else vars2
    if strIn "st " hospital_name && !strIn " st " hospital_name then
      vars3 ++ [pyReplace hospital_name "st " "saint "]
    else vars3
  else vars1

/-- `HospitalMatcher._generate_system_name_variations` (lines 272–297). -/
def generateSystemNameVariations (system_name : String) : List String :=
  let vars0 := [system_name]
  let vars1 := ["health", "system", "network", "partners", "healthcare", "hospital",
      "hospitals", "medical", "group"].foldl (fun acc w =>
      let clean := pyReplace (pyReplace system_name (" " ++ w) "") (w ++ " ") ""
      if clean ≠ system_name && clean.length > 3 then acc ++ [clean] else acc) vars0
  let words := pySplitWs system_name
  if words.length > 1 then
    let acronym := String.mk (words.filterMap fun w =>
      w.toList.head?.bind fun c => if c.isAlpha then some c else none)
    if acronym.length > 1 then vars1 ++ [pyLower acronym] else vars1
  else vars1

/-- The matcher's per-variation content search (lines 156–179): fuzzy matching
for variations longer than 5 characters, exact substring search otherwise. -/
def contentHasVariation (variations : List String) (contentLower : String) : Bool :=
  variations.any fun v =>
    if v.length > 5 then fuzzyMatchInText v contentLower else strIn v contentLower

/-- `HospitalMatcher._has_price_transparency_indicators` (lines 337–352). -/
def hasPriceTransparencyIndicators (content : String) : Bool :=
  ["standard charge", "price list", "chargemaster", "machine readable",
   "negotiated rate", "payer-specific", "cash price", "gross charge",
   "price transparency", "cdm", "charge description master"].any
    fun ind => strIn ind content

/-- `HospitalMatcher._rule_based_validation` (lines 107–233).  The file system
boundary is the pair `(fileName, contentSample)`: the downloaded file's name
and the text sample `_extract_content_sample` decodes from it.  A hospital
whose `city` is `None` raises `AttributeError` at `hospital.city.lower()`,
which the source's `except` turns into `(False, 0.0, "Error during …")`. -/
def ruleBasedValidation (fileName contentSample : String) (h : Hospital) : MatchResult :=
  match h.city with
  | none => ⟨false, 0, "Error during validation: 'NoneType' object has no attribute 'lower'"⟩
  | some city =>
    let file_name := pyLower fileName
    let hospital_name := pyLower h.name
    let cityL := pyLower city
    let stateL := pyLower h.state
    let health_sys_name := hospitalHealthSysName h
    let system_name := if health_sys_name ≠ "" then pyLower health_sys_name else ""
    let hospVars := generateHospitalNameVariations hospital_name
    let sysVars := if system_name ≠ "" then generateSystemNameVariations system_name else []
    let has_hospital_name := hospVars.any fun v => strIn v file_name
    let has_system_name := if system_name ≠ "" then sysVars.any (fun v => strIn v file_name)
      else false
    let has_location := strIn cityL file_name || strIn stateL file_name
    let contentLower := pyLower contentSample
    let content_has_hospital_name := contentHasVariation hospVars contentLower
    let content_has_system_name := if system_name ≠ "" then
        contentHasVariation sysVars contentLower else false
    let content_has_location := strIn cityL contentLower && strIn stateL contentLower
    if has_hospital_name && (has_location || content_has_location) then
      ⟨true, mkRat 9 10,
        "File name contains hospital name and location information. Hospital: " ++ hospital_name⟩
    else if content_has_hospital_name && (has_location || content_has_location) then
      ⟨true, mkRat 85 100,
        "File content contains hospital name and location information. Hospital: " ++ hospital_name⟩
    else if system_name ≠ "" && has_system_name && (has_location || content_has_location) then
      ⟨true, mkRat 8 10,
        "File appears to be a system-wide price file for " ++ system_name ++
          " that likely includes " ++ hospital_name⟩
    else if system_name ≠ "" && content_has_system_name && content_has_location then
      ⟨true, mkRat 75 100,
        "File content indicates a system-wide price file for " ++ system_name ++
          " that may include " ++ hospital_name⟩
    else if has_location && content_has_location &&
        hasPriceTransparencyIndicators contentLower then
      ⟨true, mkRat 7 10,
        "File contains location information matching " ++ city ++ ", " ++ h.state ++
          " and price transparency indicators"⟩
    else if (has_hospital_name || content_has_hospital_name) &&
        !(has_location || content_has_location) then
      ⟨false, mkRat 6 10,
        "File references hospital name but lacks location confirmation for " ++ city ++
          ", " ++ h.state⟩
    else if (has_system_name || content_has_system_name) &&
        !(has_location || content_has_location) then
      ⟨false, mkRat 5 10,
        "File references health system (" ++ system_name ++
          ") but lacks location confirmation for " ++ city ++ ", " ++ h.state⟩
    else
      ⟨false, mkRat 7 10,
        "No clear indicators that this file is for " ++ hospital_name ++ " in " ++
          city ++ ", " ++ h.state⟩

/-- The structured `{valid, confidence, explanation}` judgment returned by the
semantic (LLM) tier. -/
structure LLMResult where
  valid : Bool
  confidence : Rat
  explanation : String
deriving DecidableEq, Repr

/-- The combination step of `HospitalMatcher.validate` (lines 83–97), applied
once both tiers have run. -/
def combineTiers (rule : MatchResult) (llm : LLMResult) : MatchResult :=
  if llm.valid && !rule.isMatch then
    ⟨true, llm.confidence, llm.explanation⟩
  else if !llm.valid && rule.isMatch then
    if llm.confidence > mkRat 8 10 then ⟨false, llm.confidence, llm.explanation⟩
    else ⟨true, rule.confidence, rule.reasoning ++ " (LLM was uncertain)"⟩
  else if llm.valid && rule.isMatch then
    ⟨true, max rule.confidence llm.confidence, llm.explanation⟩
  else
    ⟨false, max rule.confidence llm.confidence, llm.explanation⟩

/-- The control flow of `HospitalMatcher.validate` (lines 38–105) given the
deterministic tier's output `rule`: early return when `confidence > 0.9`,
otherwise dispatch on the optional analyzer.  `none` models calling without a
content analyzer; `some (.error e)` models an LLM call that raises (the source
falls back to the rule-based result with an annotation); `some (.ok llm)` is a
successful structured judgment. -/
def validateWithRule (rule : MatchResult)
    (analyzer : Option (Except String LLMResult)) : MatchResult :=
  if rule.confidence > mkRat 9 10 then rule
  else
    match analyzer with
    | none => rule
    | some (.error e) =>
      ⟨rule.isMatch, rule.confidence,
        rule.reasoning ++ " (LLM validation failed: " ++ e ++ ")"⟩
    | some (.ok llm) => combineTiers rule llm

/-- `HospitalMatcher.validate` (lines 27–105): deterministic tier first, then
the gate/combination of `validateWithRule`. -/
def matcherValidate (fileName contentSample : String) (h : Hospital)
    (analyzer : Option (Except String LLMResult)) : MatchResult :=
  validateWithRule (ruleBasedValidation fileName contentSample h) analyzer

/-! ## PriceFile data model (src/price-finder/src/models/price_file.py) -/

structure PriceFile where
  hospital_id : String
  url : String
  file_type : String
  validated : Bool := false
  validation_score : Rat := 0
  validation_notes : Option String := none
  file_size : Option Nat := none
  contains_prices : Bool := false
  contains_hospital_name : Bool := false
  coverage_period : Option String := none
deriving DecidableEq, Repr

/-! ## StatusTracker (src/price-finder/src/pipeline/status_tracker.py)

The SQLite store is embedded as lists of rows; `datetime.now()` is supplied as
an explicit `now : Nat`.  Writes that the source commits are modelled directly
(the embedding assumes the persistence layer itself does not fail; the
`except`/`rollback` arms of the source only fire on such engine failures). -/

/-- A row of the `hospitals` table. -/
structure HospitalRow where
  id : String
  name : String
  state : String
  city : Option String := none
  health_system_name : Option String := none
  last_searched : Option Nat := none
  search_status : String := "pending"
  search_attempts : Nat := 0
  validation_date : Option Nat := none
  updated_at : Option Nat := none
deriving DecidableEq, Repr

/-- A row of the `price_files` table. -/
structure PriceFileRow where
  hospital_id : String
  url : String
  file_type : String
  validated : Bool
  validation_score : Rat
  validation_notes : Option String
  file_size : Option Nat
  found_date : Nat
  contains_prices : Bool
  contains_hospital_name : Bool
  coverage_period : Option String
  created_at : Nat
  updated_at : Nat
deriving DecidableEq, Repr

/-- A row of the `search_logs` table. -/
structure LogRow where
  hospital_id : String
  status : String
  message : String
  timestamp : Nat
deriving DecidableEq, Repr

/-- The tracker's database. -/
structure TrackerDB where
  hospitals : List HospitalRow
  price_files : List PriceFileRow
  search_logs : List LogRow
deriving DecidableEq, Repr

/-- `UPDATE hospitals SET … WHERE id = hid` (applies `f` to every matching row). -/
def updateById (l : List HospitalRow) (hid : String) (f : HospitalRow → HospitalRow) :
    List HospitalRow :=
  l.map fun r => if r.id == hid then f r else r

/-- `SELECT … FROM hospitals WHERE id = hid` (first matching row). -/
def lookupHospital (db : TrackerDB) (hid : String) : Option HospitalRow :=
  db.hospitals.find? fun r => r.id == hid

/-- `StatusTracker.start_search` (lines 239–286): status → `searching`,
`last_searched` stamped, `search_attempts` incremented, one log row appended. -/
def startSearch (now : Nat) (hid : String) (db : TrackerDB) : TrackerDB :=
  { db with
    hospitals := updateById db.hospitals hid fun r =>
      { r with search_status := "searching", last_searched := some now,
               search_attempts := r.search_attempts + 1, updated_at := some now }
    search_logs := db.search_logs ++ [⟨hid, "searching", "Search started", now⟩] }

/-- `StatusTracker.mark_success` (lines 288–359): status → `found`,
`validation_date` stamped, the price file inserted, one log row appended. -/
def markSuccess (now : Nat) (hid : String) (pf : PriceFile) (db : TrackerDB) : TrackerDB :=
  { db with
    hospitals := updateById db.hospitals hid fun r =>
      { r with search_status := "found", validation_date := some now,
               updated_at := some now }
    price_files := db.price_files ++
      [⟨hid, pf.url, pf.file_type, pf.validated, pf.validation_score,
        pf.validation_notes, pf.file_size, now, pf.contains_prices,
        pf.contains_hospital_name, pf.coverage_period, now, now⟩]
    search_logs := db.search_logs ++ [⟨hid, "found", "Found price file: " ++ pf.url, now⟩] }

/-- `StatusTracker.mark_failure` (lines 361–409): status → `not_found`,
one log row appended; `search_attempts` is not touched. -/
def markFailure (now : Nat) (hid : String) (reason : Option String) (db : TrackerDB) :
    TrackerDB :=
  { db with
    hospitals := updateById db.hospitals hid fun r =>
      { r with search_status := "not_found", updated_at := some now }
    search_logs := db.search_logs ++
      [⟨hid, "not_found",
        "Price file not found: " ++ (match reason with | some m => m | none => "No suitable files"),
        now⟩] }

/-- `StatusTracker.mark_error` (lines 411–458): status → `error`,
one log row appended; `search_attempts` is not touched. -/
def markError (now : Nat) (hid : String) (errorMessage : String) (db : TrackerDB) :
    TrackerDB :=
  { db with
    hospitals := updateById db.hospitals hid fun r =>
      { r with search_status := "error", updated_at := some now }
    search_logs := db.search_logs ++
      [⟨hid, "error", "Error during search: " ++ errorMessage, now⟩] }

/-- `NULLS FIRST` encoding of an optional timestamp: `none` sorts before every
`some`, and `some` values keep their order. -/
def optNatKey : Option Nat → Nat
  | none => 0
  | some n => n + 1

/-- The `ORDER BY search_attempts ASC, validation_date ASC NULLS FIRST,
last_searched ASC NULLS FIRST` sort key of `get_hospitals_to_search`. -/
def rowKey (r : HospitalRow) : Nat × Nat × Nat :=
  (r.search_attempts, optNatKey r.validation_date, optNatKey r.last_searched)

/-- Lexicographic order on the sort key. -/
def rowLe (r s : HospitalRow) : Prop :=
  (rowKey r).1 < (rowKey s).1 ∨
    ((rowKey r).1 = (rowKey s).1 ∧
      ((rowKey r).2.1 < (rowKey s).2.1 ∨
        ((rowKey r).2.1 = (rowKey s).2.1 ∧ (rowKey r).2.2 ≤ (rowKey s).2.2)))

instance : DecidableRel rowLe := fun r s => by unfold rowLe; infer_instance

instance : IsTotal HospitalRow rowLe := ⟨by intro a b; unfold rowLe; omega⟩

instance : IsTrans HospitalRow rowLe := ⟨by intro a b c; unfold rowLe; omega⟩

/-- The `WHERE` clause of `get_hospitals_to_search` (lines 474–485) as SQL
parses it: `status = 'pending' OR status = 'error' AND state IN (…)` — the
`AND` binds tighter than the `OR`, and the filter is only appended when the
`states` argument is a non-empty list. -/
def eligibleRow (states : List String) (r : HospitalRow) : Bool :=
  if states.isEmpty then
    r.search_status == "pending" || r.search_status == "error"
  else
    r.search_status == "pending" ||
      (r.search_status == "error" && states.contains r.state)

/-- The row conversion of lines 495–505 (`Hospital(id=row['id'], …)`). -/
def rowToHospital (r : HospitalRow) : Hospital :=
  { id := r.id, name := r.name, state := r.state, city := r.city,
    health_system_name := r.health_system_name,
    last_search_date := r.last_searched, search_status := r.search_status,
    search_attempts := r.search_attempts }

/-- The rows selected by `get_hospitals_to_search`: filter, order, limit. -/
def hospitalsToSearchRows (limit : Nat) (states : List String) (db : TrackerDB) :
    List HospitalRow :=
  (List.insertionSort rowLe (db.hospitals.filter (eligibleRow states))).take limit

/-- `StatusTracker.get_hospitals_to_search` (lines 460–514). -/
def getHospitalsToSearch (limit : Nat) (states : List String) (db : TrackerDB) :
    List Hospital :=
  (hospitalsToSearchRows limit states db).map rowToHospital

/-! ## FileValidator (src/price-finder/src/validators/file_validator.py)

The file system, the codecs, the csv module, pandas and zipfile are external:
a file is embedded as a `FileModel` carrying its size, suffix, and the parsed
view each library call would produce (decoded text, parsed tables, parsed
JSON, …), with `Option … = none` standing for a parse call that raises. -/

/-- `FileValidator.PRICE_PATTERN.match(cell)`: full match of
`^\s*\$?\s*\d+(?:[,.]\d+)?\s*$`. -/
def pricePattern (s : String) : Bool :=
  let l0 := s.toList.dropWhile pyIsSpace
  let l1 := match l0 with | '$' :: t => t | _ => l0
  let l2 := l1.dropWhile pyIsSpace
  match l2 with
  | [] => false
  | c :: _ =>
    c.isDigit &&
      (let l3 := l2.dropWhile Char.isDigit
       let l4 := match l3 with
         | sep :: d :: _ =>
           if (sep == ',' || sep == '.') && d.isDigit then
             (l3.drop 1).dropWhile Char.isDigit
           else l3
         | _ => l3
       (l4.dropWhile pyIsSpace).isEmpty)

/-- `FileValidator.VALID_EXTENSIONS`. -/
def validFileExtensions : List String :=
  [".csv", ".json", ".xlsx", ".xls", ".xml", ".txt", ".pdf", ".html", ".htm",
   ".tsv", ".dat", ".zip"]

/-- The price-indicator header vocabulary of `_headers_indicate_price_file`. -/
def priceColumnKeywords : List String :=
  ["price", "charge", "rate", "fee", "cost", "amount", "dollar", "payment"]

/-- The service/code-indicator header vocabulary of
`_headers_indicate_price_file`. -/
def codeColumnKeywords : List String :=
  ["cpt", "hcpcs", "drg", "ms-drg", "code", "rev", "procedure", "service", "ndc"]

/-- The well-known price-transparency phrases of
`_headers_indicate_price_file`. -/
def transparencyPhrases : List String :=
  ["standard charge", "list price", "cash price", "discounted cash",
   "negotiated rate", "payer-specific", "min price", "max price",
   "gross charge", "chargemaster", "self-pay"]

/-- The hospital/facility-identifying header vocabulary of
`_headers_indicate_price_file`. -/
def hospitalIndicatorKeywords : List String :=
  ["hospital", "facility", "provider", "location", "department"]

/-- `FileValidator._headers_indicate_price_file` (lines 552–611). -/
def headersIndicatePriceFile (headers : List String) : Bool :=
  if headers.isEmpty then false
  else
    let headersLower := headers.map pyLower
    let presentTypes :=
      (if headersLower.any (fun h => priceColumnKeywords.any (fun kw => strIn kw h)) then 1
       else 0) +
      (if headersLower.any (fun h => codeColumnKeywords.any (fun kw => strIn kw h)) then 1
       else 0)
    let sufficientColumns := presentTypes ≥ 2
    let hasTransparencyPattern :=
      headersLower.any fun h => transparencyPhrases.any fun p => strIn p h
    let hasPrice := headersLower.any fun h => strIn "price" h
    let hasHospitalIndicator :=
      headersLower.any fun h => hospitalIndicatorKeywords.any fun ind => strIn ind h
    sufficientColumns || hasTransparencyPattern || (hasPrice && hasHospitalIndicator)

/-- The row loop of `_validate_csv` (lines 317–334): counts non-empty rows
(`row_count`), looks for a currency-like cell within the first `sampleSize`
enumerated rows, and breaks once `row_count ≥ minRows` with a price found. -/
def countRows (minRows sampleSize : Nat) : List (List String) → Nat → Nat → Bool → Nat × Bool
  | [], _, rowCount, priceFound => (rowCount, priceFound)
  | row :: rest, i, rowCount, priceFound =>
    if row.isEmpty || row.all (fun cell => pyStrip cell == "") then
      countRows minRows sampleSize rest (i + 1) rowCount priceFound
    else
      let rowCount' := rowCount + 1
      let priceFound' := priceFound || (decide (i < sampleSize) && row.any pricePattern)
      if rowCount' ≥ minRows && priceFound' then (rowCount', priceFound')
      else countRows minRows sampleSize rest (i + 1) rowCount' priceFound'

/-- Result of `_validate_csv`'s body for one encoding/delimiter parse:
`accept`/`reject` are its `return True`/`return False`, `skip` its `continue`
to the next combination. -/
inductive CsvOutcome where
  | accept
  | reject
  | skip
deriving DecidableEq, Repr

/-- The per-parse body of `_validate_csv` (lines 288–353), over the parsed
table (header row followed by data rows). -/
def validateCsvTable (minRows sampleSize : Nat) : List (List String) → CsvOutcome
  | [] => .reject
  | headers :: rows =>
    if !headersIndicatePriceFile headers then
      if headers.any pricePattern then .accept else .skip
    else
      let rp := countRows minRows sampleSize rows 0 0 false
      if rp.1 > 0 && rp.2 then
        if rp.1 < minRows then (if rp.1 ≥ 3 then .accept else .reject) else .accept
      else if rp.1 < minRows then .skip
      else if !rp.2 then .skip
      else .accept

/-- `FileValidator._validate_csv` (lines 267–367): tries each successfully
decoded (encoding, delimiter) parse in order; a parse whose delimiter is not
in the sample, or that raises, is simply absent from `tables`. -/
def validateCsv (minRows sampleSize : Nat) : List (List (List String)) → Bool
  | [] => false
  | t :: rest =>
    match validateCsvTable minRows sampleSize t with
    | .accept => true
    | .reject => false
    | .skip => validateCsv minRows sampleSize rest

/-- One column of the dataframe `pd.read_excel` returns (header, dtype,
string-rendered cells). -/
structure ExcelCol where
  header : String
  isNumericDtype : Bool
  cells : List String
deriving DecidableEq, Repr

/-- The dataframe `pd.read_excel(file, nrows=sample_size)` returns. -/
structure ExcelModel where
  cols : List ExcelCol
deriving DecidableEq, Repr

/-- `len(df)` for the Excel model. -/
def excelRowCount (em : ExcelModel) : Nat :=
  ((em.cols.head?).map (fun c => c.cells.length)).getD 0

/-- `FileValidator._validate_excel` (lines 369–412); `none` models a raising
`pd.read_excel`. -/
def validateExcel (minRows sampleSize : Nat) (em? : Option ExcelModel) : Bool :=
  match em? with
  | none => false
  | some em =>
    if em.cols.isEmpty || excelRowCount em == 0 then false
    else if !headersIndicatePriceFile (em.cols.map (fun c => c.header)) then false
    else if excelRowCount em < minRows then false
    else
      em.cols.any fun c =>
        c.isNumericDtype || (c.cells.take sampleSize).any (fun v => pricePattern v)

/-- Parsed JSON values (`json.load`). -/
inductive Json where
  | null
  | boolV (b : Bool)
  | num (q : Rat)
  | str (s : String)
  | arr (items : List Json)
  | obj (fields : List (String × Json))

mutual

/-- `check_value` inside `_json_contains_price_values` (lines 616–627).
Python's `bool` is an `int`, so `True` satisfies `value > 0`. -/
def checkValue : Json → Bool
  | .null => false
  | .boolV b => b
  | .num q => q > 0
  | .str s => pricePattern s
  | .obj fields => checkFields fields
  | .arr items => checkItems items

/-- `any(check_value(v) for v in value.values())`. -/
def checkFields : List (String × Json) → Bool
  | [] => false
  | kv :: rest => checkValue kv.2 || checkFields rest

/-- `any(check_value(v) for v in value)`. -/
def checkItems : List Json → Bool
  | [] => false
  | v :: rest => checkValue v || checkItems rest

end

/-- Python truthiness `not data` on a parsed JSON value. -/
def jsonFalsy : Json → Bool
  | .null => true
  | .boolV b => !b
  | .num q => q == 0
  | .str s => s.isEmpty
  | .arr items => items.isEmpty
  | .obj fields => fields.isEmpty

/-- `FileValidator._validate_json` (lines 414–472); `none` models a raising
`json.load`. -/
def validateJson (minRows sampleSize : Nat) (j? : Option Json) : Bool :=
  match j? with
  | none => false
  | some data =>
    if jsonFalsy data then false
    else
      match data with
      | .arr items =>
        if items.length < minRows then false
        else
          match items.head? with
          | some (.obj fields) =>
            if !headersIndicatePriceFile (fields.map Prod.fst) then false
            else if !checkItems (items.take sampleSize) then false
            else true
          | _ => true
      | .obj fields =>
        let earlyTrue := fields.any fun kv =>
          match kv.2 with
          | .arr v =>
            decide (v.length ≥ minRows) &&
              (match v.head? with
               | some (.obj sub) =>
                 headersIndicatePriceFile (sub.map Prod.fst) && checkItems (v.take sampleSize)
               | _ => false)
          | _ => false
        let arraysFound := fields.any fun kv =>
          match kv.2 with
          | .arr v => decide (v.length ≥ minRows)
          | _ => false
        if earlyTrue then true
        else if !arraysFound then false
        else true
      | _ => true

/-- The dataframe `pd.read_xml` returns. -/
structure XmlModel where
  headers : List String
  rowCount : Nat
deriving DecidableEq, Repr

/-- `FileValidator._validate_xml` (lines 514–550); `none` models a raising
`pd.read_xml`. -/
def validateXml (minRows : Nat) (x? : Option XmlModel) : Bool :=
  match x? with
  | none => false
  | some x =>
    if x.rowCount == 0 then false
    else if x.rowCount < minRows then false
    else headersIndicatePriceFile x.headers

/-- A file extracted from a zip archive, with the parsed view per format. -/
structure ZipEntry where
  suffix : String
  csvTables : List (List (List String)) := []
  excel : Option ExcelModel := none
  json : Option Json := none
  xml : Option XmlModel := none

/-- The per-entry dispatch of `_validate_zip_file` (lines 181–214): nested zips
are skipped, only the tabular formats can accept, all other types fall through. -/
def validateZipEntry (minRows sampleSize : Nat) (e : ZipEntry) : Bool :=
  if e.suffix == ".zip" then false
  else if validFileExtensions.contains e.suffix then
    if [".csv", ".txt", ".tsv", ".dat"].contains e.suffix then
      validateCsv minRows sampleSize e.csvTables
    else if [".xlsx", ".xls"].contains e.suffix then
      validateExcel minRows sampleSize e.excel
    else if e.suffix == ".json" then validateJson minRows sampleSize e.json
    else if e.suffix == ".xml" then validateXml minRows e.xml
    else false
  else false

/-- `FileValidator._validate_zip_file` (lines 162–224); `none` models a bad
archive. -/
def validateZipFile (minRows sampleSize : Nat) (entries? : Option (List ZipEntry)) : Bool :=
  match entries? with
  | none => false
  | some es => es.any (validateZipEntry minRows sampleSize)

/-- Matches one of the `<td>`-price regexes of the HTML pre-check (lines
119–122) at the head of `l`: literal `<td`, then `[^>]*>`, optional spaces and
`$`, digits, a mandatory `.digits` part when `needDecimals`, spaces, `</td>`. -/
def matchTdPriceAt (needDecimals : Bool) (l : List Char) : Bool :=
  if leadsList "<td".toList l then
    let r1 := (l.drop 3).dropWhile (fun c => !(c == '>'))
    match r1 with
    | '>' :: r2 =>
      let r3 := r2.dropWhile pyIsSpace
      let r4 := match r3 with | '$' :: t => t | _ => r3
      (match r4 with
       | c :: _ =>
         c.isDigit &&
           (let r5 := r4.dropWhile Char.isDigit
            if needDecimals then
              match r5 with
              | '.' :: d :: _ =>
                d.isDigit &&
                  leadsList "</td>".toList
                    (((r5.drop 1).dropWhile Char.isDigit).dropWhile pyIsSpace)
              | _ => false
            else leadsList "</td>".toList (r5.dropWhile pyIsSpace))
       | [] => false)
    | _ => false
  else false

/-- `re.search`: does `p` match at some suffix position? -/
def anySuffix (p : List Char → Bool) : List Char → Bool
  | [] => p []
  | c :: rest => p (c :: rest) || anySuffix p rest

/-- The HTML pre-check of `is_valid_format` (lines 85–135).  `true` means the
pre-check returns `False` early (file rejected); note that when the first 4000
characters already exhaust the file, the source's second `f.read()` yields the
empty string, so no price table can be found. -/
def htmlRejected (htmlText : String) : Bool :=
  let content := String.mk (htmlText.toList.take 4000)
  if strIn "<!DOCTYPE html>" content || strIn "<html" content then
    let nonPriceIndicators :=
      ["login", "signin", "error", "404", "not found", "page not found",
       "<form", "password", "username", "log in", "sign in"]
    if nonPriceIndicators.any (fun ind => strIn ind (pyLower content)) then true
    else
      let content2 :=
        if content.length < 4000 then String.mk (htmlText.toList.drop 4000) else content
      let priceIndicators :=
        ["price", "charge", "cost", "rate", "fee", "cpt", "hcpcs", "procedure"]
      let hasPriceTable :=
        strIn "<table" content2 &&
          priceIndicators.any (fun ind => strIn ind (pyLower content2)) &&
          (anySuffix (matchTdPriceAt true) content2.toList ||
            anySuffix (matchTdPriceAt false) content2.toList)
      !hasPriceTable
  else false

/-- A downloaded file as the validator sees it: its size and suffix plus the
parsed view each library call would produce on it. -/
structure FileModel where
  pathExists : Bool := true
  size : Nat
  suffix : String
  htmlText : String := ""
  headBytes : List Nat := []
  csvTables : List (List (List String)) := []
  excel : Option ExcelModel := none
  json : Option Json := none
  xml : Option XmlModel := none
  zipEntries : Option (List ZipEntry) := none

/-- Python `bytes.strip()` (ASCII whitespace). -/
def bytesStrip (l : List Nat) : List Nat :=
  let ws := fun b : Nat => b == 32 || b == 9 || b == 10 || b == 13 || b == 11 || b == 12
  ((l.dropWhile ws).reverse.dropWhile ws).reverse

/-- `FileValidator._infer_and_validate_format` (lines 226–265) over the first
1024 bytes of an extensionless file. -/
def inferAndValidateFormat (minRows sampleSize : Nat) (fm : FileModel) : Bool :=
  let header := fm.headBytes
  if header.contains 44 || header.contains 59 || header.contains 9 then
    validateCsv minRows sampleSize fm.csvTables
  else if leadsList [80, 75, 3, 4] header || leadsList [208, 207, 17, 224] header then
    validateExcel minRows sampleSize fm.excel
  else if leadsList [123] (bytesStrip header) || leadsList [91] (bytesStrip header) then
    validateJson minRows sampleSize fm.json
  else if substrList [60, 63, 120, 109, 108] header ||
      substrList [60, 114, 111, 111, 116, 62] header then
    validateXml minRows fm.xml
  else if leadsList [80, 75, 3, 4] header then
    validateZipFile minRows sampleSize fm.zipEntries
  else false

/-- `FileValidator.is_valid_format` (lines 51–160). -/
def isValidFormat (minRows sampleSize : Nat) (fm : FileModel) : Bool :=
  if !fm.pathExists then false
  else if fm.size == 0 then false
  else if fm.size > 100 * 1024 * 1024 then false
  else if fm.suffix == "" then inferAndValidateFormat minRows sampleSize fm
  else
    let ext := pyLower fm.suffix
    if !validFileExtensions.contains ext then false
    else if (ext == ".html" || ext == ".htm") && htmlRejected fm.htmlText then false
    else if ext == ".zip" then validateZipFile minRows sampleSize fm.zipEntries
    else if [".csv", ".txt", ".tsv", ".dat"].contains ext then
      validateCsv minRows sampleSize fm.csvTables
    else if [".xlsx", ".xls"].contains ext then validateExcel minRows sampleSize fm.excel
    else if ext == ".json" then validateJson minRows sampleSize fm.json
    else if ext == ".xml" then true
    else if [".pdf", ".html", ".htm"].contains ext then decide (fm.size > 1000)
    else false

/-! ## Orchestrator (src/price-finder/src/pipeline/orchestrator.py)

`find_price_file` composes external collaborators (search API, LLM link
analyzer, crawler, downloader, validator, matcher, metadata extractor).  Each
collaborator is an `Except`-valued oracle in a `PipelineEnv`: `.error`
models the call raising.  The run is instrumented with an `Event` trace
recording which pages were crawled and which candidate files were downloaded,
format-checked and matched, in execution order. -/

/-- One search-API result (`{title, url, snippet, rank}` — only fields the
pipeline reads). -/
structure SearchResult where
  title : String := ""
  link : String := ""
  snippet : String := ""
deriving DecidableEq, Repr

/-- One analyzed result from the LLM link analyzer (`link` plus
`relevance_score`). -/
structure AnalyzedLink where
  link : String
  relevance_score : Rat
deriving DecidableEq, Repr

/-- One item of `page_data['links']` / `page_data['price_file_links']`
(`.get`-accessed dict: every key may be absent). -/
structure PageLinkInfo where
  url : Option String := none
  text : String := ""
  is_file : Bool := false
  facility : Option String := none
deriving DecidableEq, Repr

/-- The dict returned by `crawler.crawl` (both keys may be absent). -/
structure PageData where
  price_file_links : Option (List PageLinkInfo) := none
  links : Option (List PageLinkInfo) := none
deriving DecidableEq, Repr

/-- Trace of the externally visible work performed during one attempt. -/
inductive Event where
  | crawled (url : String)
  | candidateTried (url : String)
  | downloaded (url : String)
  | formatChecked (url : String)
  | matcherRun (url : String)
deriving DecidableEq, Repr

/-- The oracle environment for one `find_price_file` call. -/
structure PipelineEnv where
  now : Nat
  searchResults : Except String (List SearchResult)
  analyzedResults : Except String (List AnalyzedLink)
  crawl : String → Except String PageData
  downloadFile : String → Except String (Option String)
  isValidFormatOracle : String → Except String Bool
  matcherOracle : String → Except String (Bool × Rat × String)
  extractMetadata : String → String → Except String PriceFile

/-- `dict.fromkeys` de-duplication (keeps the first occurrence, stable). -/
def dedupKeepFirst (l : List String) : List String :=
  l.foldl (fun acc u => if acc.contains u then acc else acc ++ [u]) []

/-- `facility_links[facility].append(url)` with insertion-ordered dict. -/
def addFacility (fl : List (String × List String)) (fac url : String) :
    List (String × List String) :=
  if (fl.find? (fun p => p.1 == fac)).isSome then
    fl.map fun p => if p.1 == fac then (p.1, p.2 ++ [url]) else p
  else fl ++ [(fac, [url])]

/-- Lines 174–226: collect `file_links` (with duplicates, in order) and the
facility→urls dict from the crawled page data. -/
def collectLinks (pd : PageData) : List String × List (String × List String) :=
  let step1 := (pd.price_file_links.getD []).foldl
    (fun (acc : List String × List (String × List String)) li =>
      match li.url with
      | none => acc
      | some url =>
        let fl := match li.facility with
          | some fac => addFacility acc.2 fac url
          | none => acc.2
        (acc.1 ++ [url], fl))
    ([], [])
  let priceFileExtensions := [".csv", ".xlsx", ".xls", ".json", ".xml"]
  let priceIndicators :=
    ["price", "charge", "standard", "chargemaster", "transparency", "cdm",
     "machine-readable", "rates", "negotiated"]
  (pd.links.getD []).foldl
    (fun acc li =>
      match li.url with
      | none => acc
      | some url0 =>
        let url := pyLower url0
        let text := pyLower li.text
        let isPriceFileExt := priceFileExtensions.any fun ext => pyEndsWith url ext
        let isZipWithPrice := pyEndsWith url ".zip" &&
          priceIndicators.any fun ind => strIn ind url || strIn ind text
        let hasPriceIndicator :=
          priceIndicators.any fun ind => strIn ind url || strIn ind text
        if isPriceFileExt || isZipWithPrice || (hasPriceIndicator && li.is_file) then
          let fl := match li.facility with
            | some fac => addFacility acc.2 fac url0
            | none => acc.2
          (acc.1 ++ [url0], fl)
        else acc)
    step1

/-- `PriceFinderPipeline._standardize_facility_name` (lines 578–628).  Note
that after lowercasing, the `word[0].isupper()` escape can never fire, and the
chained comparison `name.find(' '+word) > name.find(' - ') > 0` is the
conjunction of its two parts. -/
def standardizeFacilityNameOrch (name : String) : String :=
  if name == "" then ""
  else
    let n0 := pyLower name
    let n1 := pyReplace (pyReplace (pyReplace (pyReplace n0 "-" " ") "|" " ") "/" " ") "," " "
    let n2 := String.intercalate " " (pySplitWs n1)
    let n3 := pyReplace (pyReplace (pyReplace (pyReplace (pyReplace n2
      "medical center" "hospital") "med center" "hospital") "medical ctr" "hospital")
      "med ctr" "hospital") "health center" "hospital"
    let n4 := pyReplace (pyReplace (pyReplace n3 "health system" "") "healthcare" "")
      "health care" ""
    let common :=
      ["the", "and", "of", "at", "in", "by", "for", "a", "an", "to", "with",
       "hospital", "medical", "center", "health", "regional", "community",
       "memorial", "general", "system", "care", "saint", "st", "university"]
    let dashPos := pyFind n4 " - "
    let acc := (pySplitWs n4).foldl
      (fun (acc : List String × List String) word =>
        if !(common.contains word) ||
            (word.length > 2 && (word.toList.headD ' ').isUpper) then
          if pyFind n4 (" " ++ word) > dashPos && dashPos > 0 then
            (acc.1, acc.2 ++ [word])
          else (acc.1 ++ [word], acc.2)
        else acc)
      ([], [])
    let result := String.intercalate " " acc.1
    if acc.2 ≠ [] then result ++ " " ++ String.intercalate " " acc.2 else result

/-- Lines 240–255: word-overlap score of one facility name against the
hospital, with city/state boosts. -/
def facilityMatchScore (h : Hospital) (facility : String) : Rat :=
  let hospitalStd := standardizeFacilityNameOrch h.name
  let hospitalWords := (pySplitWs hospitalStd).dedup
  let facilityStd := standardizeFacilityNameOrch facility
  let facilityWords := (pySplitWs facilityStd).dedup
  let commonCount := (hospitalWords.filter fun w => facilityWords.contains w).length
  let totalCount :=
    (hospitalWords ++ facilityWords.filter fun w => !hospitalWords.contains w).length
  let score0 : Rat := mkRat commonCount (max 1 totalCount)
  let score1 := score0 + (match h.city with
    | some c => if c ≠ "" && strIn (pyLower c) facilityStd then mkRat 3 10 else 0
    | none => 0)
  score1 + (if h.state ≠ "" && strIn (pyLower h.state) facilityStd then mkRat 2 10 else 0)

/-- Lines 237–260: track the best-scoring facility (strict improvement only,
first wins ties, initial score 0). -/
def bestFacility (h : Hospital) (fl : List (String × List String)) : Option String × Rat :=
  fl.foldl
    (fun (acc : Option String × Rat) p =>
      let score := facilityMatchScore h p.1
      if score > acc.2 then (some p.1, score) else acc)
    (none, 0)

/-- Lines 228–276: put the matched facility's links first (when the best
facility scores above 0.4), then the remaining unique file links. -/
def prioritizeLinks (h : Hospital) (fileLinks : List String)
    (fl : List (String × List String)) : List String :=
  if fl.isEmpty then fileLinks
  else
    let best := bestFacility h fl
    if best.2 > mkRat 4 10 then
      match best.1 with
      | some fac =>
        let pri := (((fl.find? fun p => p.1 == fac)).map Prod.snd).getD []
        fileLinks.foldl (fun acc url => if acc.contains url then acc else acc ++ [url]) pri
      | none => fileLinks
    else fileLinks

/-- Lines 293–310: skip PDFs without price indicators in the URL. -/
def pdfShouldSkip (link : String) : Bool :=
  let ll := pyLower link
  if pyEndsWith ll ".pdf" then
    let hasPriceIndicator :=
      ["price", "charge", "chargemaster", "cdm", "standard-charges"].any
        fun ind => strIn ind ll
    if !hasPriceIndicator then true
    else
      let shouldSkip :=
        ["patient", "rights", "notice", "form", "policy", "privacy", "consent"].any
          fun ind => strIn ind ll
      shouldSkip && !hasPriceIndicator
  else false

/-- Line 152–155: `'noland' in hospital.name.lower() or 'noland' in
health_sys_name.lower()`. -/
def isNolandHospital (h : Hospital) : Bool :=
  let nameL := pyLower h.name
  let hsn := hospitalHealthSysName h
  let hsL := if hsn ≠ "" then pyLower hsn else ""
  strIn "noland" nameL || strIn "noland" hsL

/-- Lines 336–348: the system-hospital (Noland) leniency override applied to
the matcher verdict for a candidate file. -/
def systemLeniencyAdjust (h : Hospital) (fileName : String) (v : Bool × Rat × String) :
    Bool × Rat × String :=
  if !v.1 && isSystemHospital h then
    if isNolandHospital h &&
        (strIn "birmingham" (pyLower fileName) || strIn "anniston" (pyLower fileName)) then
      if strIn (pyLower h.state) (pyLower v.2.2) then
        (true, mkRat 75 100,
          v.2.2 ++ " System-wide price file: May cover multiple Noland facilities including "
            ++ h.name ++ ".")
      else v
    else v
  else v

/-- The body of one candidate-loop iteration (lines 292–368) after the loop
entry: download, format check, matcher, leniency override, metadata.  Any
exception inside is caught per candidate (`continue`), so the step never
aborts the attempt. -/
def processCandidateCore (env : PipelineEnv) (h : Hospital) (link : String) :
    List Event × Option PriceFile :=
  if pdfShouldSkip link then ([], none)
  else
    match env.downloadFile link with
    | .error _ => ([], none)
    | .ok none => ([], none)
    | .ok (some path) =>
      match env.isValidFormatOracle path with
      | .error _ => ([Event.downloaded link], none)
      | .ok false => ([Event.downloaded link, Event.formatChecked link], none)
      | .ok true =>
        match env.matcherOracle path with
        | .error _ => ([Event.downloaded link, Event.formatChecked link], none)
        | .ok v =>
          let v' := systemLeniencyAdjust h path v
          match env.extractMetadata path link with
          | .error _ =>
            ([Event.downloaded link, Event.formatChecked link, Event.matcherRun link], none)
          | .ok pf0 =>
            let pf := { pf0 with validated := v'.1, validation_score := v'.2.1,
                                 validation_notes := some v'.2.2 }
            ([Event.downloaded link, Event.formatChecked link, Event.matcherRun link],
              if v'.1 then some pf else none)

/-- One iteration of the candidate loop (lines 291–368), with the loop entry
recorded in the trace. -/
def processOneCandidate (env : PipelineEnv) (h : Hospital) (link : String) :
    List Event × Option PriceFile :=
  (Event.candidateTried link :: (processCandidateCore env h link).1,
    (processCandidateCore env h link).2)

/-- The candidate loop: every candidate of the page is processed — there is no
early exit inside this loop. -/
def processCandidates (env : PipelineEnv) (h : Hospital) : List String →
    List Event × List PriceFile
  | [] => ([], [])
  | link :: rest =>
    let s := processOneCandidate env h link
    let r := processCandidates env h rest
    (s.1 ++ r.1, s.2.toList ++ r.2)

/-- The body of one page-loop iteration (lines 159–371) after the crawl is
initiated: extract and prioritize candidate links (capped at 5), then run the
candidate loop.  A crawl exception is *outside* the per-candidate `try` and
aborts the attempt. -/
def processPageCore (env : PipelineEnv) (h : Hospital) (pageUrl : String) :
    List Event × Except String (List PriceFile) :=
  match env.crawl pageUrl with
  | .error e => ([], .error e)
  | .ok pd =>
    let collected := collectLinks pd
    let fileLinks := dedupKeepFirst collected.1
    let prioritized := (prioritizeLinks h fileLinks collected.2).take 5
    if prioritized.isEmpty then ([], .ok [])
    else
      let r := processCandidates env h prioritized
      (r.1, .ok r.2)

/-- One iteration of the page loop, with the crawl recorded in the trace. -/
def processPage (env : PipelineEnv) (h : Hospital) (pageUrl : String) :
    List Event × Except String (List PriceFile) :=
  (Event.crawled pageUrl :: (processPageCore env h pageUrl).1,
    (processPageCore env h pageUrl).2)

/-- The page loop with the source's early-stop (lines 373–376): after a page's
candidates are *all* processed, if any of that page's valid files scores above
0.9, the loop breaks — it does not visit the remaining pages. -/
def pagesLoop (env : PipelineEnv) (h : Hospital) : List AnalyzedLink →
    List Event × Except String (List PriceFile)
  | [] => ([], .ok [])
  | l :: rest =>
    let (ev, r) := processPage env h l.link
    match r with
    | .error e => (ev, .error e)
    | .ok tempFiles =>
      if tempFiles.any (fun f => f.validation_score > mkRat 9 10) then (ev, .ok tempFiles)
      else
        let (ev2, r2) := pagesLoop env h rest
        (ev ++ ev2, r2.map fun files => tempFiles ++ files)

/-- Descending, stable order on analyzed links (`sort(key=relevance_score,
reverse=True)`). -/
def analyzedGe (a b : AnalyzedLink) : Prop := b.relevance_score ≤ a.relevance_score

instance : DecidableRel analyzedGe := fun a b => by unfold analyzedGe; infer_instance

/-- Descending, stable order on collected price files (`sort(key=
validation_score, reverse=True)`). -/
def fileScoreGe (a b : PriceFile) : Prop := b.validation_score ≤ a.validation_score

instance : DecidableRel fileScoreGe := fun a b => by unfold fileScoreGe; infer_instance

/-- The outcome of one `find_price_file` call: the returned value, the
database after the attempt, and the event trace. -/
structure AttemptResult where
  result : Option PriceFile
  db : TrackerDB
  events : List Event

/-- `PriceFinderPipeline.find_price_file` (lines 100–396).  The surrounding
`try`/`except` turns any raise from an oracle into `mark_error` plus a `None`
return; the store transitions (`start_search`, `mark_*`) are the modelled
`StatusTracker` operations on the explicit `TrackerDB`. -/
def findPriceFile (env : PipelineEnv) (h : Hospital) (db : TrackerDB) : AttemptResult :=
  let db1 := startSearch env.now h.id db
  match env.searchResults with
  | .error e => ⟨none, markError env.now h.id e db1, []⟩
  | .ok results =>
    if results.isEmpty then
      ⟨none, markFailure env.now h.id (some "No search results found") db1, []⟩
    else
      match env.analyzedResults with
      | .error e => ⟨none, markError env.now h.id e db1, []⟩
      | .ok analyzed =>
        let topLinks := (List.insertionSort analyzedGe analyzed).take 3
        let (ev, r) := pagesLoop env h topLinks
        match r with
        | .error e => ⟨none, markError env.now h.id e db1, ev⟩
        | .ok validFiles =>
          match List.insertionSort fileScoreGe validFiles with
          | [] => ⟨none, markFailure env.now h.id (some "No valid files found") db1, ev⟩
          | best :: _ => ⟨some best, markSuccess env.now h.id best db1, ev⟩

/-! ## Link scoring (modelled from the spec)

Modelled from the spec: the numeric link relevance scoring of spec §4.1 — a
base score from the data-file-extension match plus weighted, non-negative
bonuses for price-domain keywords in the URL path or anchor text, plus a bonus
when "price" and "transparency" co-occur in the anchor text — has no
implementation under `src/` (the crawler's `_extract_links` only attaches the
boolean `is_file` flag and keyword membership; the numeric `relevance_score`
consumed by the orchestrator is produced by the external LLM link analyzer).
The model keeps the spec's structure over the evidence carried by a candidate
link. -/

/-- Modelled from the spec: the scoring evidence of one candidate link —
whether its URL ends in a known data-file extension, which price-domain
keywords match its URL path or anchor text, and whether "price" and
"transparency" co-occur in the anchor text. -/
structure LinkEvidence where
  extMatch : Bool
  keywordMatches : List String
  priceTransparencyCoOccur : Bool
deriving DecidableEq, Repr

/-- Modelled from the spec: per-keyword non-negative weight (uniform). -/
def keywordWeight : Rat := mkRat 1 10

/-- Modelled from the spec: base score for a data-file-extension match. -/
def extBaseScore (extMatch : Bool) : Rat := if extMatch then mkRat 1 2 else 0

/-- Modelled from the spec: base score from the extension match, plus a
weighted bonus per matched price-domain keyword, plus the co-occurrence
bonus; clamped into the unit interval of the `CandidateLink` invariant. -/
def linkScore (e : LinkEvidence) : Rat :=
  min 1 (extBaseScore e.extMatch + keywordWeight * e.keywordMatches.length +
    (if e.priceTransparencyCoOccur then mkRat 1 10 else 0))

/-- The exception, if any, that the body of `find_price_file` raises at one of
its uncaught points (search call, link-analyzer call, or a crawl inside the
page loop), as a function of the same oracles. -/
def attemptException (env : PipelineEnv) (h : Hospital) : Option String :=
  match env.searchResults with
  | .error e => some e
  | .ok results =>
    if results.isEmpty then none
    else
      match env.analyzedResults with
      | .error e => some e
      | .ok analyzed =>
        match (pagesLoop env h ((List.insertionSort analyzedGe analyzed).take 3)).2 with
        | .error e => some e
        | .ok _ => none

/-! ## Concrete fixtures used by the claim theorems -/

/-- A hospital row in state `not_found` (retryable per the spec). -/
def rowNotFound : HospitalRow :=
  { id := "h1", name := "Alpha", state := "CA", search_status := "not_found" }

/-- A pending hospital row in a state outside the filter. -/
def rowPendingNY : HospitalRow :=
  { id := "h2", name := "Beta", state := "NY", search_status := "pending" }

/-- An errored row: older last attempt but newer validation date. -/
def rowErrOldSearch : HospitalRow :=
  { id := "h3", name := "Gamma", state := "CA", search_status := "error",
    search_attempts := 1, last_searched := some 10, validation_date := some 100 }

/-- An errored row: newer last attempt but older validation date. -/
def rowErrNewSearch : HospitalRow :=
  { id := "h4", name := "Delta", state := "CA", search_status := "error",
    search_attempts := 1, last_searched := some 20, validation_date := some 50 }

/-- A parsed Excel file with 5 data rows, price-indicating headers, and
currency-like cell values. -/
def excelShort : ExcelModel :=
  ⟨[⟨"procedure", false, ["a", "b", "c", "d", "e"]⟩,
    ⟨"price", false, ["$10", "$20", "$30", "$40", "$50"]⟩]⟩

/-- The short Excel file as the validator sees it. -/
def fmExcelShort : FileModel := { size := 5000, suffix := ".xlsx", excel := some excelShort }

/-- The data rows of a short CSV price table (5 rows, currency values). -/
def csvShortRows : List (List String) :=
  [["$5", "1"], ["$6", "2"], ["$7", "3"], ["$8", "4"], ["$9", "5"]]

/-- A hospital whose 5-character name keeps every generated name variant on
the exact-substring path of the matcher. -/
def hospC2 : Hospital :=
  { id := "hx", name := "abcde", state := "WY", city := some "Springfield" }

/-- A semantic-tier judgment that accepts but is not confident (0.5 ≤ 0.8). -/
def llmWeakYes : LLMResult := ⟨true, mkRat 1 2, "llm says valid"⟩

/-- First candidate file link of the C5 scenario. -/
def urlA : String := "https://x.com/a.csv"

/-- Second candidate file link of the C5 scenario. -/
def urlB : String := "https://x.com/b.csv"

/-- A one-page scenario: the page offers two CSV candidates; the first
validates with confidence 0.95 (above the 0.9 early-stop threshold), the
second with 0.5. -/
def envC5 : PipelineEnv :=
  { now := 0,
    searchResults := .ok [{ title := "t", link := "p1", snippet := "s" }],
    analyzedResults := .ok [⟨"p1", mkRat 9 10⟩],
    crawl := fun u => if u == "p1" then
        .ok { links := some [⟨some urlA, "a", true, none⟩, ⟨some urlB, "b", true, none⟩] }
      else .error "no such page",
    downloadFile := fun u => if u == urlA then .ok (some "a.csv")
      else if u == urlB then .ok (some "b.csv") else .ok none,
    isValidFormatOracle := fun _ => .ok true,
    matcherOracle := fun p => if p == "a.csv" then .ok (true, mkRat 95 100, "match a")
      else .ok (true, mkRat 1 2, "match b"),
    extractMetadata := fun _ link =>
      .ok { hospital_id := "h1", url := link, file_type := "csv" } }

/-- The hospital of the C5 scenario. -/
def hospC5 : Hospital := { id := "h1", name := "gen", state := "AL", city := some "Anniston" }

/-- The tracker database of the C5 scenario (one registered hospital). -/
def dbC5 : TrackerDB := ⟨[{ id := "h1", name := "gen", state := "AL" }], [], []⟩

/-- The recorded price files of the C5 page. -/
def pfA : PriceFile :=
  { hospital_id := "h1", url := urlA, file_type := "csv", validated := true,
    validation_score := mkRat 95 100, validation_notes := some "match a" }

/-- The second recorded price file of the C5 page. -/
def pfB : PriceFile :=
  { hospital_id := "h1", url := urlB, file_type := "csv", validated := true,
    validation_score := mkRat 1 2, validation_notes := some "match b" }

/-- The event trace of processing page `p1` of the C5 scenario. -/
def evP1 : List Event :=
  [.crawled "p1",
   .candidateTried urlA, .downloaded urlA, .formatChecked urlA, .matcherRun urlA,
   .candidateTried urlB, .downloaded urlB, .formatChecked urlB, .matcherRun urlB]

/-- The registered hospital row of the C1/C5 scenario database. -/
def rowC5 : HospitalRow := { id := "h1", name := "gen", state := "AL" }

/-- The C5 scenario environment with the search call raising. -/
def envC1err : PipelineEnv := { envC5 with searchResults := .error "boom" }

/-! ## Helper lemmas -/

theorem getattr_health_sys_name (h : Hospital) : h.getattr? "health_sys_name" = none := rfl

theorem hospitalHealthSysName_empty (h : Hospital) : hospitalHealthSysName h = "" := rfl

theorem isSystemHospital_false (h : Hospital) : isSystemHospital h = false := rfl

theorem systemLeniencyAdjust_id (h : Hospital) (f : String) (v : Bool × Rat × String) :
    systemLeniencyAdjust h f v = v := by
  unfold systemLeniencyAdjust
  simp [isSystemHospital_false]

/-! ## Claim C10 -/

/-- C10: over the `Hospital` dataclass (whose field is `health_system_name`),
a `getattr` probe for `health_sys_name` never finds an attribute; hence the
orchestrator's `is_system_hospital` flag is always `false`, the orchestrator's
system-wide/Noland leniency override never changes a verdict, and the
matcher's system-name branches (the ones producing confidence 0.8 and 0.75)
are unreachable, whatever `health_system_name` holds. -/
theorem C10_health_sys_attr_probe :
    (∀ h : Hospital, h.getattr? "health_sys_name" = none) ∧
    (∀ h : Hospital, isSystemHospital h = false) ∧
    (∀ (h : Hospital) (f : String) (v : Bool × Rat × String),
      systemLeniencyAdjust h f v = v) ∧
    (∀ (fn cs : String) (h : Hospital),
      (ruleBasedValidation fn cs h).confidence ≠ mkRat 8 10 ∧
      (ruleBasedValidation fn cs h).confidence ≠ mkRat 75 100) := by
  refine ⟨getattr_health_sys_name, isSystemHospital_false, systemLeniencyAdjust_id, ?_⟩
  intro fn cs h
  rcases hc : h.city with _ | city <;>
    simp only [ruleBasedValidation, hc, hospitalHealthSysName_empty]
  · constructor <;> norm_num [Rat.mkRat_eq_div]
  · simp only [ne_eq, not_true_eq_false, if_false, decide_False]
    split_ifs <;> (try simp_all) <;> constructor <;> norm_num [Rat.mkRat_eq_div]

/-! ## Claim C9 -/

/-- C9: the candidate-link relevance score is monotone in the evidence —
adding a data-file-extension match, and then additionally a price-keyword
match, never decreases the score; the score is a base from the extension
match plus non-negative keyword bonuses, kept in the unit interval. -/
theorem C9_link_score_monotone :
    ∀ (e : LinkEvidence) (kw : String),
      linkScore e ≤ linkScore { e with extMatch := true } ∧
      linkScore { e with extMatch := true } ≤
        linkScore { e with extMatch := true, keywordMatches := kw :: e.keywordMatches } ∧
      0 ≤ linkScore e ∧ linkScore e ≤ 1 := by
  intro e kw
  have hbase : ∀ b : Bool, extBaseScore b ≤ extBaseScore true := by
    intro b; cases b <;> norm_num [extBaseScore, Rat.mkRat_eq_div]
  have hkw0 : (0 : Rat) ≤ keywordWeight := by norm_num [keywordWeight, Rat.mkRat_eq_div]
  have hco : ∀ b : Bool, (0 : Rat) ≤ (if b then mkRat 1 10 else 0) := by
    intro b; cases b <;> norm_num [Rat.mkRat_eq_div]
  have hb0 : ∀ b : Bool, (0 : Rat) ≤ extBaseScore b := by
    intro b; cases b <;> norm_num [extBaseScore, Rat.mkRat_eq_div]
  refine ⟨?_, ?_, ?_, min_le_left _ _⟩
  · exact min_le_min le_rfl (by
      apply add_le_add_right
      apply add_le_add_right
      exact hbase e.extMatch)
  · refine min_le_min le_rfl ?_
    apply add_le_add_right
    apply add_le_add_left
    have : ((e.keywordMatches.length : Rat)) ≤ ((kw :: e.keywordMatches).length : Rat) := by
      simp only [List.length_cons]
      push_cast
      linarith
    exact mul_le_mul_of_nonneg_left this hkw0
  · refine le_min (by norm_num) ?_
    have h1 : (0 : Rat) ≤ keywordWeight * e.keywordMatches.length :=
      mul_nonneg hkw0 (by positivity)
    have := hb0 e.extMatch
    have := hco e.priceTransparencyCoOccur
    linarith

/-! ## Claim C6 -/

/-- C6 counterexample: the header list `["charge", "hospital"]` has a
price-indicator header (`charge`) together with a hospital/facility-identifying
header (`hospital`), yet the validator's header-acceptance predicate rejects
it — refuting the claim's third acceptance clause as stated. -/
theorem C6_counterexample :
    headersIndicatePriceFile ["charge", "hospital"] = false ∧
    (["charge", "hospital"].any fun hd =>
      priceColumnKeywords.any fun kw => strIn kw (pyLower hd)) = true ∧
    (["charge", "hospital"].any fun hd =>
      hospitalIndicatorKeywords.any fun kw => strIn kw (pyLower hd)) = true := by
  refine ⟨by decide, by decide, by decide⟩

/-- C6 (amended): the header-acceptance predicate returns `true` iff a
price-indicator header and a service/code-indicator header are both present,
or some header contains a well-known price-transparency phrase, or a header
containing the literal substring `price` (not an arbitrary price-indicator) is
present together with a hospital/facility-identifying header. -/
theorem C6_header_rule (headers : List String) :
    headersIndicatePriceFile headers = true ↔
      ((∃ hd ∈ headers, ∃ kw ∈ priceColumnKeywords, strIn kw (pyLower hd) = true) ∧
        (∃ hd ∈ headers, ∃ kw ∈ codeColumnKeywords, strIn kw (pyLower hd) = true)) ∨
      (∃ hd ∈ headers, ∃ p ∈ transparencyPhrases, strIn p (pyLower hd) = true) ∨
      ((∃ hd ∈ headers, strIn "price" (pyLower hd) = true) ∧
        (∃ hd ∈ headers, ∃ kw ∈ hospitalIndicatorKeywords, strIn kw (pyLower hd) = true)) := by
  have eqv : ∀ (l ks : List String),
      (∃ hd ∈ l, ∃ kw ∈ ks, strIn kw (pyLower hd) = true) ↔
        ((l.map pyLower).any (fun h => ks.any fun kw => strIn kw h) = true) := by
    intro l ks
    simp [List.any_map, Function.comp_def, List.any_eq_true]
  have eqvP : ∀ l : List String,
      (∃ hd ∈ l, strIn "price" (pyLower hd) = true) ↔
        ((l.map pyLower).any (fun h => strIn "price" h) = true) := by
    intro l
    simp [List.any_map, Function.comp_def, List.any_eq_true]
  rcases headers with _ | ⟨hd, tl⟩
  · simp [headersIndicatePriceFile]
  · simp only [headersIndicatePriceFile, List.isEmpty_cons, Bool.false_eq_true, if_false]
    rw [eqv, eqv, eqv, eqvP, eqv]
    generalize ((hd :: tl).map pyLower).any
      (fun h => priceColumnKeywords.any fun kw => strIn kw h) = a
    generalize ((hd :: tl).map pyLower).any
      (fun h => codeColumnKeywords.any fun kw => strIn kw h) = b
    generalize ((hd :: tl).map pyLower).any
      (fun h => transparencyPhrases.any fun p => strIn p h) = c
    generalize ((hd :: tl).map pyLower).any (fun h => strIn "price" h) = d
    generalize ((hd :: tl).map pyLower).any
      (fun h => hospitalIndicatorKeywords.any fun kw => strIn kw h) = e
    revert a b c d e
    decide

/-! ## Claim C8 -/

theorem find?_updateById (l : List HospitalRow) (hid j : String)
    (f : HospitalRow → HospitalRow) (hf : ∀ r, (f r).id = r.id) :
    (updateById l hid f).find? (fun r => r.id == j) =
      ((l.find? fun r => r.id == j).map fun r => if r.id == hid then f r else r) := by
  induction l with
  | nil => rfl
  | cons r t ih =>
    simp only [updateById, List.map_cons]
    have hpred : ((if r.id == hid then f r else r).id == j) = (r.id == j) := by
      split
      · rw [hf]
      · rfl
    simp only [List.find?_cons, hpred]
    cases hj : (r.id == j) with
    | true => simp [hj]
    | false =>
      simp only [hj]
      simpa [updateById] using ih

/-- C8: `mark_failure` and `mark_error` never change any hospital's
`search_attempts` counter (hence re-running them any number of times leaves it
unchanged), while `start_search` increments the counter of exactly the
targeted hospital by exactly 1 per call. -/
theorem C8_attempt_counter_frame :
    (∀ (db : TrackerDB) (now : Nat) (hid : String) (reason : Option String) (j : String),
      (lookupHospital (markFailure now hid reason db) j).map (fun r => r.search_attempts) =
        (lookupHospital db j).map fun r => r.search_attempts) ∧
    (∀ (db : TrackerDB) (now : Nat) (hid msg j : String),
      (lookupHospital (markError now hid msg db) j).map (fun r => r.search_attempts) =
        (lookupHospital db j).map fun r => r.search_attempts) ∧
    (∀ (db : TrackerDB) (now : Nat) (hid j : String),
      (lookupHospital (startSearch now hid db) j).map (fun r => r.search_attempts) =
        (lookupHospital db j).map fun r =>
          if r.id == hid then r.search_attempts + 1 else r.search_attempts) := by
  refine ⟨?_, ?_, ?_⟩ <;>
  · intros db now hid
    intros
    simp only [markFailure, markError, startSearch, lookupHospital]
    rw [find?_updateById _ _ _ _ ?_]
    · cases db.hospitals.find? fun r => r.id == _ with
      | none => rfl
      | some r =>
        simp only [Option.map_some']
        congr 1
        split <;> rfl
    · intro r
      rfl

/-! ## Claim C4 -/

/-- C4 counterexample: (i) a `not_found` hospital is *not* returned by
`get_hospitals_to_search` (the query keeps only `pending` and `error`);
(ii) with a state filter, a `pending` hospital of a *different* state is still
returned (the SQL `OR`/`AND` precedence applies the filter only to the
`error` disjunct); (iii) with equal attempt counts, rows are ordered by
`validation_date` before `last_searched`, so the row with the *newer* last
attempt can come first. -/
theorem C4_counterexample :
    getHospitalsToSearch 100 [] ⟨[rowNotFound], [], []⟩ = [] ∧
    rowNotFound.search_status = "not_found" ∧
    getHospitalsToSearch 100 ["CA"] ⟨[rowPendingNY], [], []⟩ = [rowToHospital rowPendingNY] ∧
    rowPendingNY.state = "NY" ∧
    getHospitalsToSearch 100 [] ⟨[rowErrOldSearch, rowErrNewSearch], [], []⟩ =
      [rowToHospital rowErrNewSearch, rowToHospital rowErrOldSearch] ∧
    rowErrOldSearch.search_attempts = rowErrNewSearch.search_attempts ∧
    rowErrOldSearch.last_searched = some 10 ∧ rowErrNewSearch.last_searched = some 20 := by
  refine ⟨by decide, rfl, by decide, rfl, by decide, rfl, rfl, rfl⟩

/-- C4 (amended): `get_hospitals_to_search` returns exactly the rows whose
status is `pending`, or `error` with the state filter applied (`not_found`
rows are never returned; a non-empty `states` list restricts only the `error`
disjunct), ordered by fewer attempts first, then `validation_date` (NULLs
first), then `last_searched` (NULLs first), capped at `limit`: every returned
row is eligible, the result length is `min limit (number eligible)`, the
result is sorted by that key, the returned `Hospital` values are the row
conversions, and when the limit is not reached every eligible row appears. -/
theorem C4_query_semantics :
    ∀ (db : TrackerDB) (limit : Nat) (states : List String),
      (∀ r ∈ hospitalsToSearchRows limit states db, eligibleRow states r = true) ∧
      (hospitalsToSearchRows limit states db).length =
        min limit (db.hospitals.filter (eligibleRow states)).length ∧
      List.Sorted rowLe (hospitalsToSearchRows limit states db) ∧
      getHospitalsToSearch limit states db =
        (hospitalsToSearchRows limit states db).map rowToHospital ∧
      (∀ r ∈ db.hospitals, eligibleRow states r = true →
        (hospitalsToSearchRows limit states db).length < limit →
        r ∈ hospitalsToSearchRows limit states db) := by
  intro db limit states
  refine ⟨?_, ?_, ?_, rfl, ?_⟩
  · intro r hr
    have hr' : r ∈ List.insertionSort rowLe (db.hospitals.filter (eligibleRow states)) :=
      List.take_subset _ _ hr
    have hmem := (List.perm_insertionSort rowLe _).mem_iff.mp hr'
    exact (List.mem_filter.mp hmem).2
  · rw [hospitalsToSearchRows, List.length_take,
      (List.perm_insertionSort rowLe _).length_eq]
  · exact (List.sorted_insertionSort rowLe _).sublist (List.take_sublist _ _)
  · intro r hr helig hlen
    have hmem : r ∈ db.hospitals.filter (eligibleRow states) :=
      List.mem_filter.mpr ⟨hr, helig⟩
    have hmem2 : r ∈ List.insertionSort rowLe (db.hospitals.filter (eligibleRow states)) :=
      (List.perm_insertionSort rowLe _).mem_iff.mpr hmem
    have hlen2 : (List.insertionSort rowLe
        (db.hospitals.filter (eligibleRow states))).length ≤ limit := by
      rw [hospitalsToSearchRows, List.length_take] at hlen
      omega
    rw [hospitalsToSearchRows, List.take_of_length_le hlen2]
    exact hmem2

/-! ## Claim C7 -/

/-- C7 counterexample: an Excel file with 5 rows (below the minimum of 10),
price-indicating headers and unambiguous currency values is rejected by
`is_valid_format` — the ≥3-rows-with-currency exception does not apply to the
Excel path, contradicting "across the supported formats". -/
theorem C7_counterexample :
    isValidFormat 10 100 fmExcelShort = false ∧
    excelRowCount excelShort = 5 ∧
    headersIndicatePriceFile (excelShort.cols.map fun c => c.header) = true ∧
    (excelShort.cols.any fun c => (c.cells.take 100).any fun v => pricePattern v) = true := by
  refine ⟨by decide, rfl, by decide, by decide⟩

/-- C7 (amended): `is_valid_format` rejects empty content and content larger
than 100MB; the short-file exception — accept a below-minimum file iff it has
at least 3 (non-empty) rows together with currency-like values — holds for
the delimited-text (CSV) path only, while the Excel validator rejects every
below-minimum file unconditionally. -/
theorem C7_format_rules :
    (∀ (minRows sampleSize : Nat) (fm : FileModel), fm.size = 0 →
      isValidFormat minRows sampleSize fm = false) ∧
    (∀ (minRows sampleSize : Nat) (fm : FileModel), 100 * 1024 * 1024 < fm.size →
      isValidFormat minRows sampleSize fm = false) ∧
    (∀ (minRows sampleSize : Nat) (headers : List String) (rows : List (List String)),
      headersIndicatePriceFile headers = true →
      0 < (countRows minRows sampleSize rows 0 0 false).1 →
      (countRows minRows sampleSize rows 0 0 false).1 < minRows →
      (validateCsvTable minRows sampleSize (headers :: rows) = .accept ↔
        (3 ≤ (countRows minRows sampleSize rows 0 0 false).1 ∧
          (countRows minRows sampleSize rows 0 0 false).2 = true))) ∧
    (∀ (minRows sampleSize : Nat) (em : ExcelModel), excelRowCount em < minRows →
      validateExcel minRows sampleSize (some em) = false) := by
  refine ⟨?_, ?_, ?_, ?_⟩
  · intro minRows sampleSize fm h
    by_cases hp : fm.pathExists <;> simp [isValidFormat, hp, h]
  · intro minRows sampleSize fm h
    have h0 : (fm.size == 0) = false := by simp; omega
    by_cases hp : fm.pathExists <;> simp [isValidFormat, hp, h0, h]
  · intro minRows sampleSize headers rows hhead hpos hlt
    simp only [validateCsvTable, hhead, Bool.not_true, Bool.false_eq_true, if_false]
    cases hp2 : (countRows minRows sampleSize rows 0 0 false).2 with
    | true =>
      simp only [hp2, Bool.and_true, decide_eq_true_eq]
      rw [if_pos hpos, if_pos hlt]
      split_ifs with h3 <;> simp [h3]
    | false =>
      simp only [hp2, Bool.and_false, Bool.false_eq_true, if_false]
      rw [if_pos hlt]
      simp
  · intro minRows sampleSize em hlt
    simp only [validateExcel]
    split_ifs with h1 h2 <;> rfl

/-- C7 witness: the amended rules at concrete files — an empty file, an
oversized file, the 5-row CSV table (accepted via the exception), and the
5-row Excel model (rejected). -/
theorem C7_format_rules_witness :
    isValidFormat 10 100 { size := 0, suffix := ".csv" } = false ∧
    isValidFormat 10 100 { size := 200000000, suffix := ".csv" } = false ∧
    (validateCsvTable 10 100 (["price", "code"] :: csvShortRows) = .accept ↔
      (3 ≤ (countRows 10 100 csvShortRows 0 0 false).1 ∧
        (countRows 10 100 csvShortRows 0 0 false).2 = true)) ∧
    validateExcel 10 100 (some excelShort) = false :=
  ⟨C7_format_rules.1 10 100 { size := 0, suffix := ".csv" } rfl,
    C7_format_rules.2.1 10 100 { size := 200000000, suffix := ".csv" } (by decide),
    C7_format_rules.2.2.1 10 100 ["price", "code"] csvShortRows (by decide) (by decide)
      (by decide),
    C7_format_rules.2.2.2 10 100 excelShort (by decide)⟩

/-! ## Claim C2 -/

/-- C2 counterexample: (i) a sample containing the exact hospital name and the
city — but not the state — yields `isMatch = false` with confidence 0.6
(the claim requires `true` with confidence above 0.8: the code's location
evidence needs city *and* state); (ii) a sample with no name and no location
evidence yields confidence 0.7, not ≤ 0.2. -/
theorem C2_counterexample :
    (strIn (pyLower hospC2.name) (pyLower "abcde springfield") = true ∧
      strIn (pyLower "Springfield") (pyLower "abcde springfield") = true ∧
      (ruleBasedValidation "data.csv" "abcde springfield" hospC2).isMatch = false ∧
      (ruleBasedValidation "data.csv" "abcde springfield" hospC2).confidence = mkRat 6 10) ∧
    ((ruleBasedValidation "data.csv" "zzz" hospC2).isMatch = false ∧
      (ruleBasedValidation "data.csv" "zzz" hospC2).confidence = mkRat 7 10 ∧
      ¬ ((ruleBasedValidation "data.csv" "zzz" hospC2).confidence ≤ mkRat 2 10)) := by
  refine ⟨⟨by decide, by decide, by decide, by decide⟩, by decide, by decide, by decide⟩

/-- C2 (amended): (i) when the matcher's own content name check finds the
hospital name in the sample *and* both the city and the state occur in the
sample, the deterministic verdict is a match with confidence above 0.8
(0.85, or 0.9 when the file name also matches); (ii) when there is no name
evidence at all and no location evidence in file name or sample, the verdict
is `isMatch = false` with confidence 0.7 (not ≤ 0.2). -/
theorem C2_matcher_boundary :
    (∀ (h : Hospital) (city fn cs : String),
      h.city = some city →
      contentHasVariation (generateHospitalNameVariations (pyLower h.name)) (pyLower cs) =
        true →
      strIn (pyLower city) (pyLower cs) = true →
      strIn (pyLower h.state) (pyLower cs) = true →
      (ruleBasedValidation fn cs h).isMatch = true ∧
        mkRat 8 10 < (ruleBasedValidation fn cs h).confidence) ∧
    (∀ (h : Hospital) (city fn cs : String),
      h.city = some city →
      contentHasVariation (generateHospitalNameVariations (pyLower h.name)) (pyLower cs) =
        false →
      ((generateHospitalNameVariations (pyLower h.name)).any fun v =>
        strIn v (pyLower fn)) = false →
      strIn (pyLower city) (pyLower fn) = false →
      strIn (pyLower h.state) (pyLower fn) = false →
      (strIn (pyLower city) (pyLower cs) && strIn (pyLower h.state) (pyLower cs)) = false →
      (ruleBasedValidation fn cs h).isMatch = false ∧
        (ruleBasedValidation fn cs h).confidence = mkRat 7 10) := by
  constructor
  · intro h city fn cs hc hname hcity hstate
    simp only [ruleBasedValidation, hc, hospitalHealthSysName_empty, hname, hcity, hstate,
      Bool.and_true, Bool.and_self, Bool.or_true, Bool.true_and]
    by_cases hfn : ((generateHospitalNameVariations (pyLower h.name)).any fun v =>
        strIn v (pyLower fn)) = true
    · simp only [hfn, if_true]
      norm_num [Rat.mkRat_eq_div]
    · simp only [Bool.not_eq_true] at hfn
      simp only [hfn, Bool.false_eq_true, if_false, if_true]
      norm_num [Rat.mkRat_eq_div]
  · intro h city fn cs hc hname hfn hcityf hstatef hloc
    simp only [ruleBasedValidation, hc, hospitalHealthSysName_empty, hname, hfn, hcityf,
      hstatef, hloc]
    simp

/-- C2 witness: the amended boundary theorem at concrete inputs — name plus
city plus state in the sample gives a confident match; no evidence gives the
0.7-confidence rejection. -/
theorem C2_matcher_boundary_witness :
    ((ruleBasedValidation "data.csv" "abcde springfield wy" hospC2).isMatch = true ∧
      mkRat 8 10 < (ruleBasedValidation "data.csv" "abcde springfield wy" hospC2).confidence) ∧
    ((ruleBasedValidation "data.csv" "zzz" hospC2).isMatch = false ∧
      (ruleBasedValidation "data.csv" "zzz" hospC2).confidence = mkRat 7 10) :=
  ⟨C2_matcher_boundary.1 hospC2 "Springfield" "data.csv" "abcde springfield wy" rfl
      (by decide) (by decide) (by decide),
    C2_matcher_boundary.2 hospC2 "Springfield" "data.csv" "zzz" rfl
      (by decide) (by decide) (by decide) (by decide) (by decide)⟩

/-! ## Claim C3 -/

/-- C3 counterexample: the deterministic tier rejects (confidence 0.6 ≤ 0.9,
so the semantic tier runs), the semantic tier accepts with confidence 0.5 ≤
0.8 — the tiers disagree and the semantic tier is *not* confident, yet the
semantic verdict is returned instead of the deterministic one. -/
theorem C3_counterexample :
    (ruleBasedValidation "data.csv" "abcde springfield" hospC2).isMatch = false ∧
    ¬ ((ruleBasedValidation "data.csv" "abcde springfield" hospC2).confidence > mkRat 9 10) ∧
    llmWeakYes.valid = true ∧
    ¬ (llmWeakYes.confidence > mkRat 8 10) ∧
    matcherValidate "data.csv" "abcde springfield" hospC2 (some (.ok llmWeakYes)) =
      ⟨true, mkRat 1 2, "llm says valid"⟩ := by
  refine ⟨by decide, by decide, rfl, by decide, by decide⟩

/-- C3 (amended): the semantic tier's result is ignored when the deterministic
confidence exceeds 0.9; `validate` is that gate applied to the deterministic
tier's result; and when both tiers have run: a semantic *accept* against a
deterministic reject wins regardless of the semantic confidence, a semantic
*reject* against a deterministic accept wins only with confidence above 0.8
and otherwise the deterministic verdict is kept annotated as LLM-uncertain,
and agreeing tiers return the maximum of the two confidences with the
semantic explanation. -/
theorem C3_tier_combination :
    (∀ (rule : MatchResult) (a₁ a₂ : Option (Except String LLMResult)),
      rule.confidence > mkRat 9 10 → validateWithRule rule a₁ = validateWithRule rule a₂) ∧
    (∀ (fn cs : String) (h : Hospital) (a : Option (Except String LLMResult)),
      matcherValidate fn cs h a = validateWithRule (ruleBasedValidation fn cs h) a) ∧
    (∀ (rule : MatchResult) (llm : LLMResult), ¬ (rule.confidence > mkRat 9 10) →
      (rule.isMatch = false → llm.valid = true →
        validateWithRule rule (some (.ok llm)) = ⟨true, llm.confidence, llm.explanation⟩) ∧
      (rule.isMatch = true → llm.valid = false → llm.confidence > mkRat 8 10 →
        validateWithRule rule (some (.ok llm)) = ⟨false, llm.confidence, llm.explanation⟩) ∧
      (rule.isMatch = true → llm.valid = false → ¬ (llm.confidence > mkRat 8 10) →
        validateWithRule rule (some (.ok llm)) =
          ⟨true, rule.confidence, rule.reasoning ++ " (LLM was uncertain)"⟩) ∧
      (llm.valid = rule.isMatch →
        validateWithRule rule (some (.ok llm)) =
          ⟨rule.isMatch, max rule.confidence llm.confidence, llm.explanation⟩)) := by
  refine ⟨?_, fun _ _ _ _ => rfl, ?_⟩
  · intro rule a₁ a₂ hgate
    simp [validateWithRule, hgate]
  · intro rule llm hgate
    simp only [validateWithRule, hgate, if_false]
    refine ⟨?_, ?_, ?_, ?_⟩
    · intro hm hv
      simp [combineTiers, hm, hv]
    · intro hm hv hconf
      simp [combineTiers, hm, hv, hconf]
    · intro hm hv hconf
      simp [combineTiers, hm, hv, hconf]
    · intro hagree
      cases hm : rule.isMatch <;> rw [hm] at hagree <;> simp [combineTiers, hm, hagree]

/-- C3 witness: the combination rules at concrete tier outputs — the gate with
a 0.95-confident rule result, and each combination case with explicit
accept/reject pairs. -/
theorem C3_tier_combination_witness :
    validateWithRule ⟨true, mkRat 95 100, "sure"⟩ none =
      validateWithRule ⟨true, mkRat 95 100, "sure"⟩ (some (.ok llmWeakYes)) ∧
    validateWithRule ⟨false, mkRat 6 10, "r"⟩ (some (.ok llmWeakYes)) =
      ⟨true, mkRat 1 2, "llm says valid"⟩ ∧
    validateWithRule ⟨true, mkRat 85 100, "r"⟩ (some (.ok ⟨false, mkRat 9 10, "no"⟩)) =
      ⟨false, mkRat 9 10, "no"⟩ ∧
    validateWithRule ⟨true, mkRat 85 100, "r"⟩ (some (.ok ⟨false, mkRat 1 2, "no"⟩)) =
      ⟨true, mkRat 85 100, "r (LLM was uncertain)"⟩ ∧
    validateWithRule ⟨true, mkRat 85 100, "r"⟩ (some (.ok ⟨true, mkRat 1 2, "yes"⟩)) =
      ⟨true, max (mkRat 85 100) (mkRat 1 2), "yes"⟩ :=
  ⟨C3_tier_combination.1 ⟨true, mkRat 95 100, "sure"⟩ none (some (.ok llmWeakYes))
      (by decide),
    (C3_tier_combination.2.2 ⟨false, mkRat 6 10, "r"⟩ llmWeakYes (by decide)).1 rfl rfl,
    ((C3_tier_combination.2.2 ⟨true, mkRat 85 100, "r"⟩ ⟨false, mkRat 9 10, "no"⟩
      (by decide)).2.1) rfl rfl (by decide),
    ((C3_tier_combination.2.2 ⟨true, mkRat 85 100, "r"⟩ ⟨false, mkRat 1 2, "no"⟩
      (by decide)).2.2.1) rfl rfl (by decide),
    ((C3_tier_combination.2.2 ⟨true, mkRat 85 100, "r"⟩ ⟨true, mkRat 1 2, "yes"⟩
      (by decide)).2.2.2) rfl⟩

/-! ## Claim C1 -/

theorem lookup_after_update (l : List HospitalRow) (hid : String)
    (f : HospitalRow → HospitalRow) (hf : ∀ r, (f r).id = r.id) (row : HospitalRow)
    (h : l.find? (fun r => r.id == hid) = some row) :
    (updateById l hid f).find? (fun r => r.id == hid) = some (f row) := by
  rw [find?_updateById l hid hid f hf, h]
  have hpred := List.find?_some h
  simp only [Option.map_some']
  rw [if_pos hpred]

/-- C1: for a registered hospital, any completed `find_price_file` call leaves
the persisted status at `found`, `not_found` or `error` — never `searching` —
and whenever the attempt raises at an uncaught point, the call returns `None`
and the status is `error`. -/
theorem C1_terminal_status :
    ∀ (env : PipelineEnv) (h : Hospital) (db : TrackerDB) (row : HospitalRow),
      lookupHospital db h.id = some row →
      (∃ r, lookupHospital (findPriceFile env h db).db h.id = some r ∧
        (r.search_status = "found" ∨ r.search_status = "not_found" ∨
          r.search_status = "error")) ∧
      (∀ e, attemptException env h = some e →
        (findPriceFile env h db).result = none ∧
          ∃ r, lookupHospital (findPriceFile env h db).db h.id = some r ∧
            r.search_status = "error") := by
  intro env h db row hrow
  have hlrow1 : lookupHospital (startSearch env.now h.id db) h.id =
      some { row with
             search_status := "searching", last_searched := some env.now,
             search_attempts := row.search_attempts + 1, updated_at := some env.now } :=
    lookup_after_update _ _ _ (by intro r; rfl) row hrow
  have herr : ∀ msg : String,
      lookupHospital (markError env.now h.id msg (startSearch env.now h.id db)) h.id =
        some { row with
               search_status := "error", last_searched := some env.now,
               search_attempts := row.search_attempts + 1, updated_at := some env.now } :=
    fun msg => lookup_after_update _ _ _ (by intro r; rfl) _ hlrow1
  have hfail : ∀ reason : Option String,
      lookupHospital (markFailure env.now h.id reason (startSearch env.now h.id db)) h.id =
        some { row with
               search_status := "not_found", last_searched := some env.now,
               search_attempts := row.search_attempts + 1, updated_at := some env.now } :=
    fun reason => lookup_after_update _ _ _ (by intro r; rfl) _ hlrow1
  have hsucc : ∀ pf : PriceFile,
      lookupHospital (markSuccess env.now h.id pf (startSearch env.now h.id db)) h.id =
        some { row with
               search_status := "found", last_searched := some env.now,
               search_attempts := row.search_attempts + 1,
               validation_date := some env.now, updated_at := some env.now } :=
    fun pf => lookup_after_update _ _ _ (by intro r; rfl) _ hlrow1
  rcases hsr : env.searchResults with e | results
  · simp only [findPriceFile, attemptException, hsr]
    exact ⟨⟨_, herr e, .inr (.inr rfl)⟩, fun e' he' => by
      cases he'
      exact ⟨by trivial, _, herr e, rfl⟩⟩
  · cases hemp : results.isEmpty with
    | true =>
      simp only [findPriceFile, attemptException, hsr, hemp, if_true]
      exact ⟨⟨_, hfail _, .inr (.inl rfl)⟩, fun e' he' => by cases he'⟩
    | false =>
      rcases han : env.analyzedResults with e | analyzed
      · simp only [findPriceFile, attemptException, hsr, hemp, han, Bool.false_eq_true,
          if_false]
        exact ⟨⟨_, herr e, .inr (.inr rfl)⟩, fun e' he' => by
          cases he'
          exact ⟨by trivial, _, herr e, rfl⟩⟩
      · rcases hpl : pagesLoop env h ((List.insertionSort analyzedGe analyzed).take 3)
          with ⟨ev, rr⟩
        rcases rr with e | validFiles
        · simp only [findPriceFile, attemptException, hsr, hemp, han, hpl,
            Bool.false_eq_true, if_false]
          exact ⟨⟨_, herr e, .inr (.inr rfl)⟩, fun e' he' => by
            cases he'
            exact ⟨by trivial, _, herr e, rfl⟩⟩
        · cases hsort : List.insertionSort fileScoreGe validFiles with
          | nil =>
            simp only [findPriceFile, attemptException, hsr, hemp, han, hpl, hsort,
              Bool.false_eq_true, if_false]
            exact ⟨⟨_, hfail _, .inr (.inl rfl)⟩, fun e' he' => by cases he'⟩
          | cons best restf =>
            simp only [findPriceFile, attemptException, hsr, hemp, han, hpl, hsort,
              Bool.false_eq_true, if_false]
            exact ⟨⟨_, hsucc best, .inl rfl⟩, fun e' he' => by cases he'⟩

/-- C1 witness: a successful concrete run ends in a terminal status, and a
concrete run whose search call raises returns `None` with status `error`. -/
theorem C1_terminal_status_witness :
    (∃ r, lookupHospital (findPriceFile envC5 hospC5 dbC5).db hospC5.id = some r ∧
      (r.search_status = "found" ∨ r.search_status = "not_found" ∨
        r.search_status = "error")) ∧
    ((findPriceFile envC1err hospC5 dbC5).result = none ∧
      ∃ r, lookupHospital (findPriceFile envC1err hospC5 dbC5).db hospC5.id = some r ∧
        r.search_status = "error") :=
  ⟨(C1_terminal_status envC5 hospC5 dbC5 rowC5 rfl).1,
    (C1_terminal_status envC1err hospC5 dbC5 rowC5 rfl).2 "boom" rfl⟩

/-! ## Claim C5 -/

/-- C5 counterexample: candidate `a.csv` is recorded with validation
confidence 0.95 > 0.9, yet candidate `b.csv` on the same page is still
downloaded and validated afterwards — the early-termination predicate runs
once per page after the whole candidate loop, not after each candidate, and
only breaks the outer (page) loop. -/
theorem C5_counterexample :
    (findPriceFile envC5 hospC5 dbC5).events = evP1 ∧
    envC5.matcherOracle "a.csv" = .ok (true, mkRat 95 100, "match a") ∧
    mkRat 9 10 < mkRat 95 100 ∧
    Event.downloaded urlB ∈ (findPriceFile envC5 hospC5 dbC5).events ∧
    (findPriceFile envC5 hospC5 dbC5).result = some pfA := by
  refine ⟨by decide, rfl, by decide, by decide, by decide⟩

/-- C5 (amended): the early-stop check is evaluated once per page, after that
page's candidate loop has completed — (i) when a page's processing succeeds
and some file from that page scores above 0.9, the page loop stops there: no
later page contributes events (none is crawled) and the collected files are
exactly that page's; (ii) within one page, every candidate link is processed
(its loop iteration is entered) regardless of earlier candidates' scores. -/
theorem C5_early_stop_per_page :
    (∀ (env : PipelineEnv) (h : Hospital) (p : AnalyzedLink) (rest : List AnalyzedLink)
       (ev : List Event) (files : List PriceFile),
      processPage env h p.link = (ev, .ok files) →
      (files.any fun f => f.validation_score > mkRat 9 10) = true →
      pagesLoop env h (p :: rest) = (ev, .ok files)) ∧
    (∀ (env : PipelineEnv) (h : Hospital) (links : List String),
      ∀ link ∈ links, Event.candidateTried link ∈ (processCandidates env h links).1) := by
  constructor
  · intro env h p rest ev files hpage hany
    simp only [pagesLoop, hpage, hany, if_true]
  · intro env h links
    induction links with
    | nil => intro link hmem; cases hmem
    | cons l rest ih =>
      intro link hmem
      rcases List.mem_cons.mp hmem with hl | hrest
      · subst hl
        exact List.mem_append_left _ (by simp [processOneCandidate])
      · exact List.mem_append_right _ (ih link hrest)

/-- C5 witness: in the concrete scenario, the page loop over `p1` followed by
a second page stops after `p1` (its trace is exactly the `p1` trace), and
candidate `b.csv` has a loop iteration in the candidate loop. -/
theorem C5_early_stop_per_page_witness :
    pagesLoop envC5 hospC5 [⟨"p1", mkRat 9 10⟩, ⟨"p2", mkRat 1 2⟩] = (evP1, .ok [pfA, pfB]) ∧
    Event.candidateTried urlB ∈ (processCandidates envC5 hospC5 [urlA, urlB]).1 := by
  constructor
  · exact C5_early_stop_per_page.1 envC5 hospC5 ⟨"p1", mkRat 9 10⟩ [⟨"p2", mkRat 1 2⟩]
      evP1 [pfA, pfB] rfl (by decide)
  · exact C5_early_stop_per_page.2 envC5 hospC5 [urlA, urlB] urlB (by decide)

/-- C4 witness: the amended query semantics applied to a concrete database —
both errored rows are eligible and both are returned under a limit of 100. -/
theorem C4_query_semantics_witness :
    rowErrOldSearch ∈ hospitalsToSearchRows 100 [] ⟨[rowErrOldSearch, rowErrNewSearch], [], []⟩ ∧
    (∀ r ∈ hospitalsToSearchRows 100 [] ⟨[rowErrOldSearch, rowErrNewSearch], [], []⟩,
      eligibleRow [] r = true) := by
  refine ⟨?_, (C4_query_semantics ⟨[rowErrOldSearch, rowErrNewSearch], [], []⟩ 100 []).1⟩
  exact (C4_query_semantics ⟨[rowErrOldSearch, rowErrNewSearch], [], []⟩ 100 []).2.2.2.2
    rowErrOldSearch (by decide) (by decide) (by decide)

end PriceFinder
